import Mathlib

/-!
# fogatlasctl: a shallow embedding of the command handlers

The program is a single Go file, `fogatlasctl.go`.  Every handler is a switch over
the positional resource token that builds one request of the generated REST client
and sends it.  The embedding keeps that shape:

* the records of the client library (`models`, `operations`) are plain structures
  holding the fields the program touches;
* a remote call is a value of `Op`; the remote platform, the file system and the
  decoders are the fields of `Env`, so a theorem quantified over `Env` speaks about
  every pattern of remote and local failures;
* a handler is a function from `Env` and `Context` to a `Run`: the calls it issued in
  order, the files it read, what it wrote to standard output, and how it ended.
-/

namespace Fogatlasctl

/-! ## Records of the client library (fields used by the program) -/

/-- A float64 value, kept abstract: the program only hands it to `strconv.FormatFloat`. -/
structure Float64 where
  bits : Nat
  deriving DecidableEq, Repr

/-- Entry of `Application.Microservices`. -/
structure ApplicationMicroservice where
  MicroserviceID : String
  deriving DecidableEq, Repr

/-- Record `models.Application`. -/
structure Application where
  ID : String
  Name : String
  Description : String
  Status : String
  Microservices : List ApplicationMicroservice
  deriving DecidableEq, Repr

/-- Entry of `Deployment.Microservices`. -/
structure DeploymentMicroservice where
  Name : String
  Description : String
  CPURequired : String
  MemoryRequired : String
  DiskRequired : String
  RegionID : String
  RegionRequired : String
  PriceRequired : Float64
  PriceComputed : Float64
  DeploymentDescriptor : String
  deriving DecidableEq, Repr

/-- Entry of `Deployment.Dataflows`. -/
structure Dataflow where
  SourceID : String
  DestinationID : String
  BandwidthRequired : Int
  LatencyRequired : Int
  deriving DecidableEq, Repr

/-- Record `models.Deployment`. -/
structure Deployment where
  Name : String
  Description : String
  Status : String
  ExternalendpointID : String
  Microservices : List DeploymentMicroservice
  Dataflows : List Dataflow
  deriving DecidableEq, Repr

/-- Record `models.Microservice`. -/
structure Microservice where
  ID : String
  Name : String
  Description : String
  ApplicationID : String
  NodeID : String
  RegionID : String
  Status : String
  deriving DecidableEq, Repr

/-- Record `models.Node`. -/
structure Node where
  ID : String
  Architecture : String
  Version : String
  Distribution : String
  RegionID : String
  CPUCapacity : String
  CPUAvailable : String
  MemoryCapacity : String
  MemoryAvailable : String
  DiskCapacity : String
  DiskAvailable : String
  Status : String
  deriving DecidableEq, Repr

/-- One price line: the four numbers printed for a resource. -/
structure Price where
  MinPrice : Float64
  MaxPrice : Float64
  Scarcity : Float64
  UnitPrice : Float64
  deriving DecidableEq, Repr

/-- Price breakdown of a region (`Region.Prices`, a pointer that may be nil). -/
structure RegionPrices where
  CPU : Price
  Memory : Price
  Disk : Price
  deriving DecidableEq, Repr

/-- Entry of `Region.Relationships`. -/
structure RegionRelationship where
  RelationshipID : String
  deriving DecidableEq, Repr

/-- Record `models.Region`; `Prices = none` is the nil pointer. -/
structure Region where
  ID : String
  Description : String
  Location : String
  Tier : Int
  Prices : Option RegionPrices
  Relationships : List RegionRelationship
  deriving DecidableEq, Repr

/-- Price breakdown of a relationship (`Relationship.Prices`, a pointer that may be nil). -/
structure RelationshipPrices where
  Bandwidth : Price
  Latency : Price
  deriving DecidableEq, Repr

/-- Record `models.Relationship`; `Prices = none` is the nil pointer. -/
structure Relationship where
  ID : String
  EndpointA : String
  EndpointB : String
  RegionID : String
  BandwidthCapacity : Int
  BandwidthAvailable : Int
  Latency : Int
  Prices : Option RelationshipPrices
  Status : String
  deriving DecidableEq, Repr

/-- Record `models.ExternalEndpoint`; `Typ` is the Go field `Type`. -/
structure ExternalEndpoint where
  ID : String
  Name : String
  Description : String
  Typ : String
  Location : String
  RegionID : String
  IPAddress : String
  deriving DecidableEq, Repr

/-- Record `models.DynamicNode`. -/
structure DynamicNode where
  ID : String
  IPAddress : String
  NodeID : String
  RegionID : String
  deriving DecidableEq, Repr

/-- The bulk descriptor `confFile`, fields in declaration order. -/
structure confFile where
  Applications : List Application
  Microservices : List Microservice
  Relationships : List Relationship
  Nodes : List Node
  Regions : List Region
  ExternalEdpoints : List ExternalEndpoint
  DynamicNodes : List DynamicNode
  Deployments : List Deployment
  deriving DecidableEq, Repr

/-- Response of a put, patch or delete operation; the program only calls its `Error()`
method, whose text is recorded here. -/
structure OK where
  Error : String
  deriving DecidableEq, Repr

/-! ## Remote calls -/

/-- One call of the generated client (`client.Operations.X(params)`), with the fields
the program sets on `params`.  An optional filter left unset is `none`. -/
inductive Op where
  | GetApplicationsID (ID : String)
  | GetApplications
  | GetDeploymentsName (Name : String)
  | GetDeployments (Status : Option String)
  | GetMicroservicesID (ID : String)
  | GetMicroservices (NodeID : Option String)
  | GetNodesID (ID : String)
  | GetNodes (RegionID : Option String)
  | GetRegionsID (ID : String)
  | GetRegions
  | GetRelationshipsID (ID : String)
  | GetRelationships (RegionID : Option String)
  | GetExternalendpointsID (ID : String)
  | GetExternalendpoints (RegionID : Option String)
  | GetDynamicnodesID (ID : String)
  | GetDynamicnodes (RegionID : Option String)
  | PutApplicationsID (ID : String) (Application : Application)
  | PutDeploymentsName (Name : String) (Deployment : Deployment)
  | PutMicroservicesID (ID : String) (Microservice : Microservice)
  | PutNodesID (ID : String) (Node : Node)
  | PutRegionsID (ID : String) (Region : Region)
  | PutRelationshipsID (ID : String) (Relationship : Relationship)
  | PutExternalendpointsID (ID : String) (Externalendpoint : ExternalEndpoint)
  | PutDynamicnodesID (ID : String) (Dynamicnode : DynamicNode)
  | PatchDeploymentsName (Name : String) (Status : String)
  | DeleteApplicationsID (ID : String)
  | DeleteDeploymentsName (Name : String)
  | DeleteMicroservicesID (ID : String)
  | DeleteNodesID (ID : String)
  | DeleteRegionsID (ID : String)
  | DeleteRelationshipsID (ID : String)
  | DeleteExternalendpointsID (ID : String)
  | DeleteDynamicnodesID (ID : String)
  deriving DecidableEq, Repr

/-- Static type of the response of each operation: a by-identifier get carries one
record (`Payload`), a list get carries the list inside its payload, every other
operation carries an `OK`. -/
def Op.Resp : Op → Type
  | .GetApplicationsID _ => Application
  | .GetApplications => List Application
  | .GetDeploymentsName _ => Deployment
  | .GetDeployments _ => List Deployment
  | .GetMicroservicesID _ => Microservice
  | .GetMicroservices _ => List Microservice
  | .GetNodesID _ => Node
  | .GetNodes _ => List Node
  | .GetRegionsID _ => Region
  | .GetRegions => List Region
  | .GetRelationshipsID _ => Relationship
  | .GetRelationships _ => List Relationship
  | .GetExternalendpointsID _ => ExternalEndpoint
  | .GetExternalendpoints _ => List ExternalEndpoint
  | .GetDynamicnodesID _ => DynamicNode
  | .GetDynamicnodes _ => List DynamicNode
  | _ => OK

/-- Everything outside the source file that a run depends on.

* `submit prior op` is what the client returns for `op` when `prior` are the calls
  already issued in this run: `.error e` is a non-nil `err` (with a nil response),
  `.ok r` a non-nil response with a nil `err`.
* `nilError` is what `Error()` yields on the nil response left by a failed call;
  `none` stands for a nil-pointer panic.
* `ReadFile` is `ioutil.ReadFile`; the `Unmarshal` fields are `json.Unmarshal` into
  each record type and `yaml.Unmarshal` into `confFile`.
* `FormatFloat x` is `strconv.FormatFloat(x, f, 2, 64)`. -/
structure Env where
  submit : List Op → (op : Op) → Except String op.Resp
  nilError : Option String
  ReadFile : String → Except String String
  UnmarshalApplication : String → Except String Application
  UnmarshalDeployment : String → Except String Deployment
  UnmarshalMicroservice : String → Except String Microservice
  UnmarshalNode : String → Except String Node
  UnmarshalRegion : String → Except String Region
  UnmarshalRelationship : String → Except String Relationship
  UnmarshalExternalEndpoint : String → Except String ExternalEndpoint
  UnmarshalDynamicNode : String → Except String DynamicNode
  UnmarshalYAML : String → Except String confFile
  FormatFloat : Float64 → String

/-! ## Standard output and the renderer -/

/-- One write to standard output: a `fmt.Printf`/`fmt.Println` text, or a table
rendered by `tablewriter` with its header and rows. -/
inductive Out where
  | text (s : String)
  | table (header : List String) (rows : List (List String))
  deriving DecidableEq, Repr

/-- The dynamic value handed to `printData(any interface{})`: one of the sixteen
response shapes it tests for, nil, or a value of some other type. -/
inductive Any where
  | nil
  | other (typeName : String)
  | GetApplicationsOK (Applications : List Application)
  | GetApplicationsIDOK (Payload : Application)
  | GetDeploymentsOK (Deployments : List Deployment)
  | GetDeploymentsNameOK (Payload : Deployment)
  | GetMicroservicesOK (Microservices : List Microservice)
  | GetMicroservicesIDOK (Payload : Microservice)
  | GetNodesOK (Nodes : List Node)
  | GetNodesIDOK (Payload : Node)
  | GetRegionsOK (Regions : List Region)
  | GetRegionsIDOK (Payload : Region)
  | GetRelationshipsOK (Relationships : List Relationship)
  | GetRelationshipsIDOK (Payload : Relationship)
  | GetExternalendpointsOK (Externalendpoints : List ExternalEndpoint)
  | GetExternalendpointsIDOK (Payload : ExternalEndpoint)
  | GetDynamicnodesOK (Dynamicnodes : List DynamicNode)
  | GetDynamicnodesIDOK (Payload : DynamicNode)
  deriving DecidableEq, Repr

/-- Decimal text of an int64, `strconv.FormatInt(x, 10)`. -/
def FormatInt (x : Int) : String := toString x

/-- The accumulation loop that builds `msids` and `relids`: the first identifier is
taken as is while the accumulator is still empty, later ones are appended after a
comma. -/
def joinIDs (ids : List String) : String :=
  ids.foldl (fun acc id => if acc = "" then id else acc ++ "," ++ id) ""

/-- The four numbers of a price line, each formatted and separated by commas. -/
def priceText (env : Env) (p : Price) : String :=
  env.FormatFloat p.MinPrice ++ "," ++ env.FormatFloat p.MaxPrice ++ "," ++
    env.FormatFloat p.Scarcity ++ "," ++ env.FormatFloat p.UnitPrice

/-- Row `str` built for an application. -/
def applicationRow (app : Application) : List String :=
  [app.ID, app.Name, app.Description, app.Status,
    joinIDs (app.Microservices.map (fun ms => ms.MicroserviceID))]

/-- Row `strms` built for a microservice of deployment `depl`. -/
def deploymentMsRow (env : Env) (depl : Deployment) (ms : DeploymentMicroservice) :
    List String :=
  [depl.Name, ms.Name, ms.Description, ms.CPURequired, ms.MemoryRequired, ms.DiskRequired,
    ms.RegionID, ms.RegionRequired, env.FormatFloat ms.PriceRequired,
    env.FormatFloat ms.PriceComputed, ms.DeploymentDescriptor]

/-- Row `strdf` built for a dataflow of deployment `depl`. -/
def deploymentDfRow (depl : Deployment) (df : Dataflow) : List String :=
  [depl.Name, df.SourceID, df.DestinationID, FormatInt df.BandwidthRequired,
    FormatInt df.LatencyRequired]

/-- Row `str` built for a deployment. -/
def deploymentRow (depl : Deployment) : List String :=
  [depl.Name, depl.Description, depl.Status, depl.ExternalendpointID]

/-- Row `str` built for a microservice. -/
def microserviceRow (ms : Microservice) : List String :=
  [ms.ID, ms.Name, ms.Description, ms.ApplicationID, ms.NodeID, ms.RegionID, ms.Status]

/-- Row `str` built for a node. -/
def nodeRow (node : Node) : List String :=
  [node.ID, node.Architecture, node.Version, node.Distribution, node.RegionID,
    node.CPUCapacity, node.CPUAvailable, node.MemoryCapacity, node.MemoryAvailable,
    node.DiskCapacity, node.DiskAvailable, node.Status]

/-- Row `str` of a region once the three price cells are known. -/
def regionRow (reg : Region) (cpuPrice memPrice diskPrice : String) : List String :=
  [reg.ID, reg.Description, reg.Location, FormatInt reg.Tier, cpuPrice, memPrice, diskPrice,
    joinIDs (reg.Relationships.map (fun rel => rel.RelationshipID))]

/-- Region row in the list branch: the price cells stay empty when `Prices` is nil. -/
def regionListRow (env : Env) (reg : Region) : List String :=
  match reg.Prices with
  | some p => regionRow reg (priceText env p.CPU) (priceText env p.Memory) (priceText env p.Disk)
  | none => regionRow reg "" "" ""

/-- Row `str` of a relationship once the two price cells are known. -/
def relationshipRow (rel : Relationship) (bwPrice latPrice : String) : List String :=
  [rel.ID, rel.EndpointA, rel.EndpointB, rel.RegionID, FormatInt rel.BandwidthCapacity,
    FormatInt rel.BandwidthAvailable, FormatInt rel.Latency, bwPrice, latPrice, rel.Status]

/-- Relationship row in the list branch: the price cells stay empty when `Prices` is nil. -/
def relationshipListRow (env : Env) (rel : Relationship) : List String :=
  match rel.Prices with
  | some p => relationshipRow rel (priceText env p.Bandwidth) (priceText env p.Latency)
  | none => relationshipRow rel "" ""

/-- Row `str` built for an external endpoint. -/
def externalEndpointRow (th : ExternalEndpoint) : List String :=
  [th.ID, th.Name, th.Description, th.Typ, th.Location, th.RegionID, th.IPAddress]

/-- Row `str` built for a dynamic node. -/
def dynamicNodeRow (dyn : DynamicNode) : List String :=
  [dyn.ID, dyn.IPAddress, dyn.NodeID, dyn.RegionID]

/-- Header of the microservice-requirements table. -/
def deploymentMsHeader : List String :=
  ["Depl. Name", "Name", "Description", "CPURequired", "MemoryRequired", "DiskRequired",
    "RegionID", "RegionRequired", "PriceRequired", "PriceComputed", "Deployment Descriptor"]

/-- Header of the dataflow table. -/
def deploymentDfHeader : List String :=
  ["Depl. Name", "SourceID", "DestinationID", "BandwidthRequired", "LatencyRequired"]

/-- Function `printData`: what it writes to standard output for the value `any`, or
`none` when it dereferences a nil `Prices` pointer (a run-time panic, before anything
of that branch is written).  The sixteen `if resp, ok := any.(T); ok` tests are
mutually exclusive, so they are rendered as one match. -/
def printData (env : Env) : Any → Option (List Out)
  | .GetApplicationsOK apps =>
    some [.table ["ID", "Name", "Description", "Status", "Microservice Id"]
      (apps.map applicationRow)]
  | .GetApplicationsIDOK app =>
    some [.table ["ID", "Name", "Description", "Status", "Microservice Id"]
      [applicationRow app]]
  | .GetDeploymentsOK depls =>
    some [.table ["Name", "Description", "Status", "ExternaEndpointID"]
        (depls.map deploymentRow),
      .text "Microservices Requirements\n",
      .table deploymentMsHeader
        (depls.flatMap (fun depl => depl.Microservices.map (deploymentMsRow env depl))),
      .text "Dataflows\n",
      .table deploymentDfHeader
        (depls.flatMap (fun depl => depl.Dataflows.map (deploymentDfRow depl)))]
  | .GetDeploymentsNameOK depl =>
    some [.table ["Name", "Description", "Status", "ExternalEndpointID"] [deploymentRow depl],
      .text "Microservices Requirements\n",
      .table deploymentMsHeader (depl.Microservices.map (deploymentMsRow env depl)),
      .text "Dataflows\n",
      .table deploymentDfHeader (depl.Dataflows.map (deploymentDfRow depl))]
  | .GetMicroservicesOK mss =>
    some [.table ["ID", "Name", "Description", "ApplicationID", "NodeID", "RegionID", "Status"]
      (mss.map microserviceRow)]
  | .GetMicroservicesIDOK ms =>
    some [.table ["ID", "Name", "Description", "ApplicationID", "NodeID", "RegionID", "Status"]
      [microserviceRow ms]]
  | .GetNodesOK nodes =>
    some [.table ["ID", "Architecture", "Version", "Distribution", "RegionID", "CPUCapacity",
        "CPUAvailable", "MemoryCapacity", "MemoryAvailable", "DiskCapacity", "DiskAvailable",
        "Status"]
      (nodes.map nodeRow)]
  | .GetNodesIDOK node =>
    some [.table ["ID", "Architecture", "Version", "Distribution", "RegionID", "CPUCapacity",
        "CPUAvailable", "MemoryCapacity", "MemoryAvailable", "DiskCapacity", "DiskAvailable",
        "Status"]
      [nodeRow node]]
  | .GetRegionsOK regs =>
    some [.table ["ID", "Description", "Location", "Tier", "CPUPrice", "MemPrice", "DiskPrice",
        "Relationship Id"]
      (regs.map (regionListRow env))]
  | .GetRegionsIDOK reg =>
    match reg.Prices with
    | none => none
    | some p =>
      some [.table ["ID", "Description", "Location", "Tier", "CPUPrice", "MemPrice",
          "DiskPrice", "Relationship Id"]
        [regionRow reg (priceText env p.CPU) (priceText env p.Memory) (priceText env p.Disk)]]
  | .GetRelationshipsOK rels =>
    some [.table ["ID", "EndpointA", "EndpointB", "RegionID", "BandwidthCapacity",
        "BandwidthAvailable", "Latency", "BandwidthPrice", "LatencyPrice", "Status"]
      (rels.map (relationshipListRow env))]
  | .GetRelationshipsIDOK rel =>
    match rel.Prices with
    | none => none
    | some p =>
      some [.table ["ID", "EndpointA", "EndpointB", "RegionID", "BandwidthCapacity",
          "BandwidthAvailable", "Latency", "BandwidthPrice", "LatencyPrice", "Status"]
        [relationshipRow rel (priceText env p.Bandwidth) (priceText env p.Latency)]]
  | .GetExternalendpointsOK ths =>
    some [.table ["ID", "Name", "Description", "Type", "Location", "RegionID", "IPAddress"]
      (ths.map externalEndpointRow)]
  | .GetExternalendpointsIDOK th =>
    some [.table ["ID", "Name", "Description", "Type", "Location", "RegionID", "IPAddress"]
      [externalEndpointRow th]]
  | .GetDynamicnodesOK dyns =>
    some [.table ["ID", "IPAddress", "NodeID", "RegionID"] (dyns.map dynamicNodeRow)]
  | .GetDynamicnodesIDOK dyn =>
    some [.table ["ID", "IPAddress", "NodeID", "RegionID"] [dynamicNodeRow dyn]]
  | .nil => some []
  | .other _ => some []

/-! ## Command context and runs -/

/-- What a handler sees of the command line (`*cli.Context`): the positional
arguments and the value of every named option (the supplied value, else the declared
default, else the empty string). -/
structure Context where
  args : List String
  flag : String → String

/-- Accessor `c.Args().Get(n)`: the n-th positional argument, empty when missing. -/
def Context.Get (c : Context) (n : Nat) : String := c.args.getD n ""

/-- Accessor `c.String(name)`. -/
def Context.GetString (c : Context) (name : String) : String := c.flag name

/-- How a handler ends: it returns nil, it returns an error with a message, or the
process panics on a nil dereference. -/
inductive Outcome where
  | ok
  | error (msg : String)
  | panic
  deriving DecidableEq, Repr

/-- Observable behaviour of one handler invocation. -/
structure Run where
  calls : List Op := []
  reads : List String := []
  out : List Out := []
  result : Outcome
  deriving DecidableEq, Repr

/-- The call `op` together with what the client returns for it after `prior`. -/
def Env.send (env : Env) (prior : List Op) (op : Op) : Op × Except String op.Resp :=
  (op, env.submit prior op)

/-- An optional request field: set to the option value when that value is non-empty. -/
def optionalField (v : String) : Option String := if v ≠ "" then some v else none

/-! ## handleGet -/

/-- Common tail of the branches of `handleGet`: send the request; a failure returns
the wrapped error, a success falls out of the switch to `printData(resp); return nil`. -/
def getAndPrint (env : Env) (op : Op) (failed : String) (wrap : op.Resp → Any) : Run :=
  match env.submit [] op with
  | .error err => { calls := [op], result := .error (failed ++ err) }
  | .ok resp =>
    match printData env (wrap resp) with
    | some out => { calls := [op], out := out, result := .ok }
    | none => { calls := [op], result := .panic }

/-- Function `handleGet`. -/
def handleGet (env : Env) (c : Context) : Run :=
  let resource := c.Get 0
  if resource = "applications" then
    if c.GetString "id" ≠ "" then
      getAndPrint env (.GetApplicationsID (c.GetString "id"))
        "Error: get applications failed: " .GetApplicationsIDOK
    else
      getAndPrint env .GetApplications "Error: get applications failed: " .GetApplicationsOK
  else if resource = "deployments" then
    if c.GetString "id" ≠ "" then
      getAndPrint env (.GetDeploymentsName (c.GetString "id"))
        "Error: get deployments failed: " .GetDeploymentsNameOK
    else
      getAndPrint env (.GetDeployments (optionalField (c.GetString "status")))
        "Error: get deployments failed: " .GetDeploymentsOK
  else if resource = "microservices" then
    if c.GetString "id" ≠ "" then
      getAndPrint env (.GetMicroservicesID (c.GetString "id"))
        "Error: get microservices failed: " .GetMicroservicesIDOK
    else
      getAndPrint env (.GetMicroservices (optionalField (c.GetString "node_id")))
        "Error: get microservices failed: " .GetMicroservicesOK
  else if resource = "nodes" then
    if c.GetString "id" ≠ "" then
      getAndPrint env (.GetNodesID (c.GetString "id")) "Error: get nodes failed: " .GetNodesIDOK
    else
      getAndPrint env (.GetNodes (optionalField (c.GetString "region_id")))
        "Error: get nodes failed: " .GetNodesOK
  else if resource = "regions" then
    if c.GetString "id" ≠ "" then
      getAndPrint env (.GetRegionsID (c.GetString "id"))
        "Error: get regions failed: " .GetRegionsIDOK
    else
      getAndPrint env .GetRegions "Error: get regions failed: " .GetRegionsOK
  else if resource = "relationships" then
    if c.GetString "id" ≠ "" then
      getAndPrint env (.GetRelationshipsID (c.GetString "id"))
        "Error: get relationships failed: " .GetRelationshipsIDOK
    else
      getAndPrint env (.GetRelationships (optionalField (c.GetString "region_id")))
        "Error: get relationships failed: " .GetRelationshipsOK
  else if resource = "externalendpoints" then
    if c.GetString "id" ≠ "" then
      getAndPrint env (.GetExternalendpointsID (c.GetString "id"))
        "Error: get external endpoints failed: " .GetExternalendpointsIDOK
    else
      getAndPrint env (.GetExternalendpoints (optionalField (c.GetString "region_id")))
        "Error: get external endpoints failed: " .GetExternalendpointsOK
  else if resource = "dynamicnodes" then
    if c.GetString "id" ≠ "" then
      getAndPrint env (.GetDynamicnodesID (c.GetString "id"))
        "Error: get dynamicnodes failed: " .GetDynamicnodesIDOK
    else
      getAndPrint env (.GetDynamicnodes (optionalField (c.GetString "region_id")))
        "Error: get dynamicnodes failed: " .GetDynamicnodesOK
  else
    { result := .error ("Error: resource specificed (" ++ resource ++ ") is unkwnown") }

/-! ## handlePatch -/

/-- Function `handlePatch`. -/
def handlePatch (env : Env) (c : Context) : Run :=
  let resource := c.Get 0
  if resource = "deployments" then
    if c.GetString "id" = "" ∨ c.GetString "status" = "" then
      { result := .error "Error: options --id and --status are required" }
    else
      match env.send [] (.PatchDeploymentsName (c.GetString "id") (c.GetString "status")) with
      | (op, .error err) =>
        { calls := [op], result := .error ("Error: patch deployments failed (" ++ err ++ ")") }
      | (op, .ok resp) => { calls := [op], out := [.text (resp.Error ++ "\n")], result := .ok }
  else
    { result := .error ("Error: resource specificed (" ++ resource ++ ") is unkwnown") }

/-! ## handlePut -/

/-- Body shared by the eight cases of `handlePut`: check the two required options,
read the file, decode it, send the request keyed by the `--id` value, print the
response text. -/
def putFromFile {α : Type} (env : Env) (c : Context) (decode : String → Except String α)
    (send : α → Op × Except String OK) (failed : String) : Run :=
  if c.GetString "id" = "" ∨ c.GetString "file" = "" then
    { result := .error "Error: options --id and --file are required" }
  else
    match env.ReadFile (c.GetString "file") with
    | .error err =>
      { reads := [c.GetString "file"],
        result := .error ("Error: unable to read file " ++ c.GetString "file" ++ ": " ++ err) }
    | .ok str =>
      match decode str with
      | .error err =>
        { reads := [c.GetString "file"],
          result := .error ("Error: wrong file format: " ++ err) }
      | .ok d =>
        match send d with
        | (op, .error err) =>
          { calls := [op], reads := [c.GetString "file"],
            result := .error (failed ++ err ++ ")") }
        | (op, .ok resp) =>
          { calls := [op], reads := [c.GetString "file"],
            out := [.text (resp.Error ++ "\n")], result := .ok }

/-- Function `handlePut`. -/
def handlePut (env : Env) (c : Context) : Run :=
  let resource := c.Get 0
  if resource = "applications" then
    putFromFile env c env.UnmarshalApplication
      (fun d => env.send [] (.PutApplicationsID (c.GetString "id") d))
      "Error: put applications failed ("
  else if resource = "deployments" then
    putFromFile env c env.UnmarshalDeployment
      (fun d => env.send [] (.PutDeploymentsName (c.GetString "id") d))
      "Error: put deployments failed ("
  else if resource = "microservices" then
    putFromFile env c env.UnmarshalMicroservice
      (fun d => env.send [] (.PutMicroservicesID (c.GetString "id") d))
      "Error: put microservices failed ("
  else if resource = "nodes" then
    putFromFile env c env.UnmarshalNode
      (fun d => env.send [] (.PutNodesID (c.GetString "id") d))
      "Error: put nodes failed ("
  else if resource = "regions" then
    putFromFile env c env.UnmarshalRegion
      (fun d => env.send [] (.PutRegionsID (c.GetString "id") d))
      "Error: put regions failed ("
  else if resource = "relationships" then
    putFromFile env c env.UnmarshalRelationship
      (fun d => env.send [] (.PutRelationshipsID (c.GetString "id") d))
      "Error: put relationships failed ("
  else if resource = "externalendpoints" then
    putFromFile env c env.UnmarshalExternalEndpoint
      (fun d => env.send [] (.PutExternalendpointsID (c.GetString "id") d))
      "Error: put external endpoints failed ("
  else if resource = "dynamicnodes" then
    putFromFile env c env.UnmarshalDynamicNode
      (fun d => env.send [] (.PutDynamicnodesID (c.GetString "id") d))
      "Error: put dynamicnodes failed ("
  else
    { result := .error ("Error: resource specificed (" ++ resource ++ ") is unkwnown") }

/-! ## handleDelete -/

/-- Body shared by the eight cases of `handleDelete`: check `--id`, send the delete
request, print the response text. -/
def deleteByID (c : Context) (send : Op × Except String OK) (failed : String) : Run :=
  if c.GetString "id" = "" then
    { result := .error "Error: option --id is required" }
  else
    match send with
    | (op, .error err) => { calls := [op], result := .error (failed ++ err) }
    | (op, .ok resp) => { calls := [op], out := [.text (resp.Error ++ "\n")], result := .ok }

/-- Function `handleDelete`.  The case labels are the ones of the source, in source
order; the sixth label is spelled with a blank. -/
def handleDelete (env : Env) (c : Context) : Run :=
  let resource := c.Get 0
  if resource = "applications" then
    deleteByID c (env.send [] (.DeleteApplicationsID (c.GetString "id")))
      "Error: delete applications failed: "
  else if resource = "microservices" then
    deleteByID c (env.send [] (.DeleteMicroservicesID (c.GetString "id")))
      "Error: delete microservices failed: "
  else if resource = "nodes" then
    deleteByID c (env.send [] (.DeleteNodesID (c.GetString "id")))
      "Error: delete nodes failed: "
  else if resource = "regions" then
    deleteByID c (env.send [] (.DeleteRegionsID (c.GetString "id")))
      "Error: delete regions failed: "
  else if resource = "relationships" then
    deleteByID c (env.send [] (.DeleteRelationshipsID (c.GetString "id")))
      "Error: delete relationships failed: "
  else if resource = "external endpoints" then
    deleteByID c (env.send [] (.DeleteExternalendpointsID (c.GetString "id")))
      "Error: delete external endpoints failed: "
  else if resource = "dynamicnodes" then
    deleteByID c (env.send [] (.DeleteDynamicnodesID (c.GetString "id")))
      "Error: delete dynamicnodes failed: "
  else if resource = "deployments" then
    deleteByID c (env.send [] (.DeleteDeploymentsName (c.GetString "id")))
      "Error: delete deployment failed: "
  else
    { result := .error ("Error: resource specificed (" ++ resource ++ ") is unkwnown") }

/-! ## handlePutAll -/

/-- Function `parseYAML`: read the file, decode it; either failure is returned as is. -/
def parseYAML (env : Env) (filename : String) : Except String confFile :=
  match env.ReadFile filename with
  | .error err => .error err
  | .ok strData =>
    match env.UnmarshalYAML strData with
    | .error err => .error err
    | .ok obj => .ok obj

/-- One `for _, x := range conf.Xs` loop of `handlePutAll`, continuing the run `r`:
each item is sent; a failure is printed and the loop continues with the next item, a
response has its text printed. -/
def putLoop {α : Type} (step : List Op → α → Op × Except String OK) : List α → Run → Run
  | [], r => r
  | x :: rest, r =>
    match step r.calls x with
    | (op, .error err) =>
      putLoop step rest
        { r with calls := r.calls ++ [op],
                 out := r.out ++ [.text ("error while sending request: " ++ err)] }
    | (op, .ok resp) =>
      putLoop step rest
        { r with calls := r.calls ++ [op], out := r.out ++ [.text (resp.Error ++ "\n")] }

/-- The eight loops of `handlePutAll` in source order, each keyed by a field of the
item it sends. -/
def putAllLoops (env : Env) (conf : confFile) (r : Run) : Run :=
  let r := putLoop (fun prior app => env.send prior (.PutApplicationsID app.ID app))
    conf.Applications r
  let r := putLoop (fun prior reg => env.send prior (.PutRegionsID reg.ID reg)) conf.Regions r
  let r := putLoop (fun prior depl => env.send prior (.PutDeploymentsName depl.Name depl))
    conf.Deployments r
  let r := putLoop (fun prior ms => env.send prior (.PutMicroservicesID ms.Name ms))
    conf.Microservices r
  let r := putLoop (fun prior node => env.send prior (.PutNodesID node.ID node)) conf.Nodes r
  let r := putLoop (fun prior rel => env.send prior (.PutRelationshipsID rel.ID rel))
    conf.Relationships r
  let r := putLoop (fun prior ee => env.send prior (.PutExternalendpointsID ee.ID ee))
    conf.ExternalEdpoints r
  putLoop (fun prior dnode => env.send prior (.PutDynamicnodesID dnode.ID dnode))
    conf.DynamicNodes r

/-- Function `handlePutAll`. -/
def handlePutAll (env : Env) (c : Context) : Run :=
  if c.GetString "file" = "" then
    { result := .error "Error: option --file is required" }
  else
    match parseYAML env (c.GetString "file") with
    | .error err => { reads := [c.GetString "file"], result := .error err }
    | .ok conf => putAllLoops env conf { reads := [c.GetString "file"], result := .ok }

/-! ## handleDeleteAll -/

/-- Delete loop of the `applications` case: a failed delete returns its error from
the handler. -/
def deleteLoopReturning {α : Type} (step : List Op → α → Op × Except String OK)
    (failed : String) : List α → Run → Run
  | [], r => r
  | x :: rest, r =>
    match step r.calls x with
    | (op, .error err) =>
      { r with calls := r.calls ++ [op], result := .error (failed ++ err) }
    | (op, .ok resp) =>
      deleteLoopReturning step failed rest
        { r with calls := r.calls ++ [op], out := r.out ++ [.text (resp.Error ++ "\n")] }

/-- Delete loop of the seven other cases: a failed delete is printed, and then
`resp.Error()` is evaluated on the nil response all the same (`Env.nilError`). -/
def deleteLoopPrinting {α : Type} (env : Env) (step : List Op → α → Op × Except String OK)
    (failed : String) : List α → Run → Run
  | [], r => r
  | x :: rest, r =>
    match step r.calls x with
    | (op, .error err) =>
      match env.nilError with
      | none =>
        { r with calls := r.calls ++ [op], out := r.out ++ [.text (failed ++ err)],
                 result := .panic }
      | some s =>
        deleteLoopPrinting env step failed rest
          { r with calls := r.calls ++ [op],
                   out := r.out ++ [.text (failed ++ err), .text (s ++ "\n")] }
    | (op, .ok resp) =>
      deleteLoopPrinting env step failed rest
        { r with calls := r.calls ++ [op], out := r.out ++ [.text (resp.Error ++ "\n")] }

/-- First half of every case of `handleDeleteAll`: the list call; its failure is
returned wrapped, its items are handed to the delete loop of the case. -/
def listThen (env : Env) (op : Op) (failed : String) (loop : op.Resp → Run → Run) : Run :=
  match env.submit [] op with
  | .error err => { calls := [op], result := .error (failed ++ err) }
  | .ok resp => loop resp { calls := [op], result := .ok }

/-- Function `handleDeleteAll`. -/
def handleDeleteAll (env : Env) (c : Context) : Run :=
  let resource := c.Get 0
  if resource = "applications" then
    listThen env .GetApplications "Error: get applications failed: "
      (deleteLoopReturning
        (fun prior (app : Application) => env.send prior (.DeleteApplicationsID app.ID))
        "Error: delete applications failed: ")
  else if resource = "deployments" then
    listThen env (.GetDeployments none) "Error: get deployments failed: "
      (deleteLoopPrinting env
        (fun prior (depl : Deployment) => env.send prior (.DeleteDeploymentsName depl.Name))
        "Error: delete deployment failed: ")
  else if resource = "microservices" then
    listThen env (.GetMicroservices none) "Error: get microservices failed: "
      (deleteLoopPrinting env
        (fun prior (ms : Microservice) => env.send prior (.DeleteMicroservicesID ms.ID))
        "Error: delete microservices failed: ")
  else if resource = "nodes" then
    listThen env (.GetNodes none) "Error: get nodes failed: "
      (deleteLoopPrinting env
        (fun prior (node : Node) => env.send prior (.DeleteNodesID node.ID))
        "Error: delete nodes failed: ")
  else if resource = "regions" then
    listThen env .GetRegions "Error: get regions failed: "
      (deleteLoopPrinting env
        (fun prior (reg : Region) => env.send prior (.DeleteRegionsID reg.ID))
        "Error: delete regions failed: ")
  else if resource = "relationships" then
    listThen env (.GetRelationships none) "Error: get relationships failed: "
      (deleteLoopPrinting env
        (fun prior (rel : Relationship) => env.send prior (.DeleteRelationshipsID rel.ID))
        "Error: delete relationships failed: ")
  else if resource = "externalendpoints" then
    listThen env (.GetExternalendpoints none) "Error: get external endpoints failed: "
      (deleteLoopPrinting env
        (fun prior (ee : ExternalEndpoint) =>
          env.send prior (.DeleteExternalendpointsID ee.ID))
        "Error: delete external endpoints failed: ")
  else if resource = "dynamicnodes" then
    listThen env (.GetDynamicnodes (optionalField (c.GetString "region_id")))
      "Error: get dynamicnodes failed: "
      (deleteLoopPrinting env
        (fun prior (dnode : DynamicNode) => env.send prior (.DeleteDynamicnodesID dnode.ID))
        "Error: delete dynamicnodes failed: ")
  else
    { result := .error ("Error: resource specificed (" ++ resource ++ ") is unkwnown") }

/-! ## main -/

/-- The six entries of `app.Commands`. -/
inductive Command where
  | get
  | put
  | patch
  | delete
  | putAll
  | deleteAll
  deriving DecidableEq, Repr

/-- Field `Flags` of each command: the declared option names with their defaults. -/
def Command.Flags : Command → List (String × String)
  | .get => [("endpoint", "127.0.0.1:8080"), ("id", ""), ("region_id", ""), ("node_id", ""),
      ("status", "")]
  | .put => [("endpoint", "127.0.0.1:8080"), ("id", ""), ("file", "")]
  | .patch => [("endpoint", "127.0.0.1:8080"), ("id", ""), ("status", "")]
  | .delete => [("endpoint", "127.0.0.1:8080"), ("id", "")]
  | .putAll => [("endpoint", "127.0.0.1:8080"), ("file", "")]
  | .deleteAll => [("endpoint", "127.0.0.1:8080")]

/-- Field `ArgsUsage` of each command, as the list of tokens between its braces. -/
def Command.ArgsUsage : Command → List String
  | .get => ["applications", "deployments", "microservices", "nodes", "regions",
      "relationships", "externalendpoints", "dynamicnodes"]
  | .put => ["applications", "deployments", "microservices", "nodes", "regions",
      "relationships", "externalendpoints", "dynamicnodes"]
  | .patch => ["deployments"]
  | .delete => ["applications", "microservices", "nodes", "regions", "relationships",
      "externalendpoints", "dynamicnodes", "deployments"]
  | .putAll => []
  | .deleteAll => ["applications", "microservices", "nodes", "regions", "relationships",
      "externalendpoints", "dynamicnodes", "deployments"]

/-- Field `Action` of each command. -/
def Command.Action : Command → Env → Context → Run
  | .get => handleGet
  | .put => handlePut
  | .patch => handlePatch
  | .delete => handleDelete
  | .putAll => handlePutAll
  | .deleteAll => handleDeleteAll

/-- What the flag parser of the cli library hands to the action of one of the six
commands: the command, the options it bound (in the order given) and the positional
arguments it left.  A command line the library answers by itself, with a usage error
or with the help text, never reaches the action and has no value here. -/
structure CommandLine where
  command : Command
  options : List (String × String)
  args : List String
  deriving DecidableEq, Repr

/-- Value of option `name` for a command: empty when the command does not declare it,
else the last supplied value, else the declared default. -/
def flagValue (declared options : List (String × String)) (name : String) : String :=
  match declared.lookup name with
  | none => ""
  | some dflt => (options.reverse.lookup name).getD dflt

/-- The context handed to the action of the command. -/
def contextOf (cl : CommandLine) : Context :=
  { args := cl.args, flag := flagValue cl.command.Flags cl.options }

/-- Call `app.Run(os.Args)` on a command line that reaches the action of its command:
the result is the one of the action, whose errors are plain `fmt.Errorf` or library
errors and carry no exit code.  The action reads every option through the context, in
which a name the command does not declare reads empty. -/
def appRun (env : Env) (cl : CommandLine) : Run :=
  cl.command.Action env (contextOf cl)

/-- What the operating system observes of the process. -/
structure Process where
  calls : List Op
  stdout : List Out
  exitStatus : Nat
  deriving DecidableEq, Repr

/-- Function `main`: run the application and print a returned error followed by a
newline; `main` then returns, which ends the process with status 0.  A panic ends it
with status 2. -/
def main (env : Env) (cl : CommandLine) : Process :=
  let r := appRun env cl
  match r.result with
  | .ok => { calls := r.calls, stdout := r.out, exitStatus := 0 }
  | .error err => { calls := r.calls, stdout := r.out ++ [.text (err ++ "\n")], exitStatus := 0 }
  | .panic => { calls := r.calls, stdout := r.out, exitStatus := 2 }

/-! ## Concrete environments used by the worked examples -/

/-- A response of the right type for every operation: an empty record, an empty
list, or an `OK` with the given text. -/
def Op.sampleResp (text : String) : (op : Op) → op.Resp
  | .GetApplicationsID id => (⟨id, "", "", "", []⟩ : Application)
  | .GetApplications => ([] : List Application)
  | .GetDeploymentsName name => (⟨name, "", "", "", [], []⟩ : Deployment)
  | .GetDeployments _ => ([] : List Deployment)
  | .GetMicroservicesID id => (⟨id, "", "", "", "", "", ""⟩ : Microservice)
  | .GetMicroservices _ => ([] : List Microservice)
  | .GetNodesID id => (⟨id, "", "", "", "", "", "", "", "", "", "", ""⟩ : Node)
  | .GetNodes _ => ([] : List Node)
  | .GetRegionsID id => (⟨id, "", "", 0, none, []⟩ : Region)
  | .GetRegions => ([] : List Region)
  | .GetRelationshipsID id => (⟨id, "", "", "", 0, 0, 0, none, ""⟩ : Relationship)
  | .GetRelationships _ => ([] : List Relationship)
  | .GetExternalendpointsID id => (⟨id, "", "", "", "", "", ""⟩ : ExternalEndpoint)
  | .GetExternalendpoints _ => ([] : List ExternalEndpoint)
  | .GetDynamicnodesID id => (⟨id, "", "", ""⟩ : DynamicNode)
  | .GetDynamicnodes _ => ([] : List DynamicNode)
  | .PutApplicationsID _ _ => ({ Error := text } : OK)
  | .PutDeploymentsName _ _ => ({ Error := text } : OK)
  | .PutMicroservicesID _ _ => ({ Error := text } : OK)
  | .PutNodesID _ _ => ({ Error := text } : OK)
  | .PutRegionsID _ _ => ({ Error := text } : OK)
  | .PutRelationshipsID _ _ => ({ Error := text } : OK)
  | .PutExternalendpointsID _ _ => ({ Error := text } : OK)
  | .PutDynamicnodesID _ _ => ({ Error := text } : OK)
  | .PatchDeploymentsName _ _ => ({ Error := text } : OK)
  | .DeleteApplicationsID _ => ({ Error := text } : OK)
  | .DeleteDeploymentsName _ => ({ Error := text } : OK)
  | .DeleteMicroservicesID _ => ({ Error := text } : OK)
  | .DeleteNodesID _ => ({ Error := text } : OK)
  | .DeleteRegionsID _ => ({ Error := text } : OK)
  | .DeleteRelationshipsID _ => ({ Error := text } : OK)
  | .DeleteExternalendpointsID _ => ({ Error := text } : OK)
  | .DeleteDynamicnodesID _ => ({ Error := text } : OK)

/-- An environment around a given remote platform: no file can be read, no text
decodes, and `Error()` on a nil response panics. -/
def envWith (submit : List Op → (op : Op) → Except String op.Resp) : Env :=
  { submit := submit
    nilError := none
    ReadFile := fun name => .error ("open " ++ name ++ ": no such file or directory")
    UnmarshalApplication := fun _ => .error "unexpected end of JSON input"
    UnmarshalDeployment := fun _ => .error "unexpected end of JSON input"
    UnmarshalMicroservice := fun _ => .error "unexpected end of JSON input"
    UnmarshalNode := fun _ => .error "unexpected end of JSON input"
    UnmarshalRegion := fun _ => .error "unexpected end of JSON input"
    UnmarshalRelationship := fun _ => .error "unexpected end of JSON input"
    UnmarshalExternalEndpoint := fun _ => .error "unexpected end of JSON input"
    UnmarshalDynamicNode := fun _ => .error "unexpected end of JSON input"
    UnmarshalYAML := fun _ => .error "yaml: did not find expected node content"
    FormatFloat := fun x => toString x.bits }

/-- A platform on which every call succeeds with `Op.sampleResp`. -/
def envUp : Env := envWith (fun _ op => .ok (op.sampleResp ""))

/-- A platform that refuses every call. -/
def envDown : Env := envWith (fun _ _ => .error "connection refused")

/-! ## Vocabulary for stating properties of calls and messages -/

/-- The five kinds of request the client offers. -/
inductive Verb where
  | get
  | list
  | put
  | patch
  | delete
  deriving DecidableEq, Repr

/-- Kind of request of an operation: `get` is the fetch by identifier, `list` the
fetch of the whole collection. -/
def Op.verb : Op → Verb
  | .GetApplicationsID _ | .GetDeploymentsName _ | .GetMicroservicesID _ | .GetNodesID _
  | .GetRegionsID _ | .GetRelationshipsID _ | .GetExternalendpointsID _
  | .GetDynamicnodesID _ => .get
  | .GetApplications | .GetDeployments _ | .GetMicroservices _ | .GetNodes _ | .GetRegions
  | .GetRelationships _ | .GetExternalendpoints _ | .GetDynamicnodes _ => .list
  | .PutApplicationsID _ _ | .PutDeploymentsName _ _ | .PutMicroservicesID _ _
  | .PutNodesID _ _ | .PutRegionsID _ _ | .PutRelationshipsID _ _
  | .PutExternalendpointsID _ _ | .PutDynamicnodesID _ _ => .put
  | .PatchDeploymentsName _ _ => .patch
  | .DeleteApplicationsID _ | .DeleteDeploymentsName _ | .DeleteMicroservicesID _
  | .DeleteNodesID _ | .DeleteRegionsID _ | .DeleteRelationshipsID _
  | .DeleteExternalendpointsID _ | .DeleteDynamicnodesID _ => .delete

/-- Resource type an operation addresses, as the token of the command line. -/
def Op.resource : Op → String
  | .GetApplicationsID _ | .GetApplications | .PutApplicationsID _ _
  | .DeleteApplicationsID _ => "applications"
  | .GetDeploymentsName _ | .GetDeployments _ | .PutDeploymentsName _ _
  | .PatchDeploymentsName _ _ | .DeleteDeploymentsName _ => "deployments"
  | .GetMicroservicesID _ | .GetMicroservices _ | .PutMicroservicesID _ _
  | .DeleteMicroservicesID _ => "microservices"
  | .GetNodesID _ | .GetNodes _ | .PutNodesID _ _ | .DeleteNodesID _ => "nodes"
  | .GetRegionsID _ | .GetRegions | .PutRegionsID _ _ | .DeleteRegionsID _ => "regions"
  | .GetRelationshipsID _ | .GetRelationships _ | .PutRelationshipsID _ _
  | .DeleteRelationshipsID _ => "relationships"
  | .GetExternalendpointsID _ | .GetExternalendpoints _ | .PutExternalendpointsID _ _
  | .DeleteExternalendpointsID _ => "externalendpoints"
  | .GetDynamicnodesID _ | .GetDynamicnodes _ | .PutDynamicnodesID _ _
  | .DeleteDynamicnodesID _ => "dynamicnodes"

/-- Identifier an operation is keyed by: its `Name` for deployments, its `ID` for the
other types; a list call has none. -/
def Op.key : Op → Option String
  | .GetApplicationsID k | .GetDeploymentsName k | .GetMicroservicesID k | .GetNodesID k
  | .GetRegionsID k | .GetRelationshipsID k | .GetExternalendpointsID k
  | .GetDynamicnodesID k => some k
  | .PutApplicationsID k _ | .PutDeploymentsName k _ | .PutMicroservicesID k _
  | .PutNodesID k _ | .PutRegionsID k _ | .PutRelationshipsID k _
  | .PutExternalendpointsID k _ | .PutDynamicnodesID k _ => some k
  | .PatchDeploymentsName k _ => some k
  | .DeleteApplicationsID k | .DeleteDeploymentsName k | .DeleteMicroservicesID k
  | .DeleteNodesID k | .DeleteRegionsID k | .DeleteRelationshipsID k
  | .DeleteExternalendpointsID k | .DeleteDynamicnodesID k => some k
  | .GetApplications | .GetDeployments _ | .GetMicroservices _ | .GetNodes _ | .GetRegions
  | .GetRelationships _ | .GetExternalendpoints _ | .GetDynamicnodes _ => none

/-- Filter field of a list request (`Status`, `NodeID` or `RegionID`), `none` when
the field is unset or the request has no such field. -/
def Op.filter : Op → Option String
  | .GetDeployments f | .GetMicroservices f | .GetNodes f | .GetRelationships f
  | .GetExternalendpoints f | .GetDynamicnodes f => f
  | _ => none

/-- Option whose value narrows the list request of a resource type in `get`:
`region_id` for nodes, relationships, external endpoints and dynamic nodes, `node_id`
for microservices, `status` for deployments, none for applications and regions. -/
def filterFlag (resource : String) : Option String :=
  if resource = "nodes" ∨ resource = "relationships" ∨ resource = "externalendpoints" ∨
      resource = "dynamicnodes" then some "region_id"
  else if resource = "microservices" then some "node_id"
  else if resource = "deployments" then some "status"
  else none

/-- Text `s` begins with the text `pre`. -/
def startsWith (s pre : String) : Prop := pre.data <+: s.data

instance (s pre : String) : Decidable (startsWith s pre) := by
  unfold startsWith; infer_instance

/-- Text `tok` occurs inside the text `msg`. -/
def containsToken (msg tok : String) : Prop := tok.data <:+: msg.data

instance (msg tok : String) : Decidable (containsToken msg tok) := by
  unfold containsToken; infer_instance

/-- The upsert calls a descriptor asks for: all applications, then regions, then
deployments, then microservices, then nodes, then relationships, then external
endpoints, then dynamic nodes, each list in its own order. -/
def expectedPutAllCalls (conf : confFile) : List Op :=
  conf.Applications.map (fun x => Op.PutApplicationsID x.ID x) ++
  conf.Regions.map (fun x => Op.PutRegionsID x.ID x) ++
  conf.Deployments.map (fun x => Op.PutDeploymentsName x.Name x) ++
  conf.Microservices.map (fun x => Op.PutMicroservicesID x.Name x) ++
  conf.Nodes.map (fun x => Op.PutNodesID x.ID x) ++
  conf.Relationships.map (fun x => Op.PutRelationshipsID x.ID x) ++
  conf.ExternalEdpoints.map (fun x => Op.PutExternalendpointsID x.ID x) ++
  conf.DynamicNodes.map (fun x => Op.PutDynamicnodesID x.ID x)

/-- Number of items of a descriptor, over its eight lists. -/
def confFile.size (conf : confFile) : Nat :=
  conf.Applications.length + conf.Regions.length + conf.Deployments.length +
    conf.Microservices.length + conf.Nodes.length + conf.Relationships.length +
    conf.ExternalEdpoints.length + conf.DynamicNodes.length

/-- A descriptor with six items: two applications, a region, a deployment, a
microservice whose name differs from its identifier, and a dynamic node. -/
def sampleConf : confFile :=
  { Applications := [⟨"a1", "shop", "", "", []⟩, ⟨"a2", "blog", "", "", []⟩]
    Microservices := [⟨"m1", "frontend", "", "a1", "", "", ""⟩]
    Relationships := []
    Nodes := []
    Regions := [⟨"r1", "", "", 1, none, []⟩]
    ExternalEdpoints := []
    DynamicNodes := [⟨"d1", "10.0.0.7", "n1", "r1"⟩]
    Deployments := [⟨"dep1", "", "", "", [], []⟩] }

/-- An environment in which `bulk.yaml` holds `sampleConf` and the platform refuses
every call issued after an odd number of earlier calls. -/
def envBulk : Env :=
  { envWith (fun prior op =>
      if prior.length % 2 = 1 then .error "connection refused" else .ok (op.sampleResp "")) with
    ReadFile := fun name =>
      if name = "bulk.yaml" then .ok "applications: ..."
      else .error ("open " ++ name ++ ": no such file or directory")
    UnmarshalYAML := fun _ => .ok sampleConf }

/-- Context of `putAll --file bulk.yaml`. -/
def bulkContext : Context :=
  { args := [], flag := fun name => if name = "file" then "bulk.yaml" else "" }

/-- Context of `get deployments --id web --status running`. -/
def getByIdContext : Context :=
  { args := ["deployments"]
    flag := fun n => if n = "id" then "web" else if n = "status" then "running" else "" }

/-- Context of `get nodes --region_id r1 --node_id n9`. -/
def getListContext : Context :=
  { args := ["nodes"]
    flag := fun n => if n = "region_id" then "r1" else if n = "node_id" then "n9" else "" }

/-- The error every handler returns from the `default` case of its switch. -/
def unknownResource (resource : String) : Run :=
  { result := .error ("Error: resource specificed (" ++ resource ++ ") is unkwnown") }

/-- Context of `delete "external endpoints" --id e1`. -/
def deleteBlankContext : Context :=
  { args := ["external endpoints"], flag := fun n => if n = "id" then "e1" else "" }

/-- Context of `delete externalendpoints --id e1`. -/
def deleteEndpointContext : Context :=
  { args := ["externalendpoints"], flag := fun n => if n = "id" then "e1" else "" }

/-- Identifiers of the items a list response carries, in response order: the `Name`
of each deployment, the `ID` of each item of the other types. -/
def listedKeys : (op : Op) → op.Resp → List String
  | .GetApplications, xs => List.map (fun (x : Application) => x.ID) xs
  | .GetDeployments _, xs => List.map (fun (x : Deployment) => x.Name) xs
  | .GetMicroservices _, xs => List.map (fun (x : Microservice) => x.ID) xs
  | .GetNodes _, xs => List.map (fun (x : Node) => x.ID) xs
  | .GetRegions, xs => List.map (fun (x : Region) => x.ID) xs
  | .GetRelationships _, xs => List.map (fun (x : Relationship) => x.ID) xs
  | .GetExternalendpoints _, xs => List.map (fun (x : ExternalEndpoint) => x.ID) xs
  | .GetDynamicnodes _, xs => List.map (fun (x : DynamicNode) => x.ID) xs
  | _, _ => []

/-- A platform holding two applications and two nodes, on which deleting `a1` or
`n1` is refused and every other call succeeds. -/
def submitFirstDeleteFails (_ : List Op) : (op : Op) → Except String op.Resp
  | .GetApplications =>
    .ok ([⟨"a1", "shop", "", "", []⟩, ⟨"a2", "blog", "", "", []⟩] : List Application)
  | .GetNodes _ =>
    .ok ([⟨"n1", "", "", "", "", "", "", "", "", "", "", ""⟩,
      ⟨"n2", "", "", "", "", "", "", "", "", "", "", ""⟩] : List Node)
  | .DeleteApplicationsID id =>
    if id = "a1" then .error "connection refused" else .ok (⟨""⟩ : OK)
  | .DeleteNodesID id =>
    if id = "n1" then .error "connection refused" else .ok (⟨""⟩ : OK)
  | op => .ok (op.sampleResp "")

/-- The environment of `submitFirstDeleteFails` in which `Error()` on a nil response
panics. -/
def envFirstDeleteFails : Env := envWith submitFirstDeleteFails

/-- The same environment with an `Error()` method that tolerates a nil response. -/
def envFirstDeleteFailsTolerant : Env :=
  { envWith submitFirstDeleteFails with nilError := some "<nil>" }

/-- A platform holding two nodes on which every call succeeds. -/
def envTwoNodes : Env :=
  envWith (fun _ op =>
    match op with
    | .GetNodes _ =>
      .ok ([⟨"n1", "", "", "", "", "", "", "", "", "", "", ""⟩,
        ⟨"n2", "", "", "", "", "", "", "", "", "", "", ""⟩] : List Node)
    | op => .ok (op.sampleResp ""))

/-- Context of `deleteAll applications`. -/
def deleteAllApplicationsContext : Context := { args := ["applications"], flag := fun _ => "" }

/-- Context of `deleteAll nodes`. -/
def deleteAllNodesContext : Context := { args := ["nodes"], flag := fun _ => "" }

/-- Command line `get bogus`. -/
def getBogusLine : CommandLine := { command := .get, options := [], args := ["bogus"] }

/-- Context of `putAll --file missing.yaml`. -/
def missingFileContext : Context :=
  { args := [], flag := fun n => if n = "file" then "missing.yaml" else "" }

/-- A request body of any of the eight record types. -/
inductive Body where
  | application (x : Application)
  | deployment (x : Deployment)
  | microservice (x : Microservice)
  | node (x : Node)
  | region (x : Region)
  | relationship (x : Relationship)
  | externalendpoint (x : ExternalEndpoint)
  | dynamicnode (x : DynamicNode)
  deriving DecidableEq, Repr

/-- Body a put request carries; the other requests carry none. -/
def Op.body : Op → Option Body
  | .PutApplicationsID _ x => some (.application x)
  | .PutDeploymentsName _ x => some (.deployment x)
  | .PutMicroservicesID _ x => some (.microservice x)
  | .PutNodesID _ x => some (.node x)
  | .PutRegionsID _ x => some (.region x)
  | .PutRelationshipsID _ x => some (.relationship x)
  | .PutExternalendpointsID _ x => some (.externalendpoint x)
  | .PutDynamicnodesID _ x => some (.dynamicnode x)
  | _ => none

/-- Identifier field of a body itself: `Name` for a deployment, `ID` for the others. -/
def Body.ident : Body → String
  | .application x => x.ID
  | .deployment x => x.Name
  | .microservice x => x.ID
  | .node x => x.ID
  | .region x => x.ID
  | .relationship x => x.ID
  | .externalendpoint x => x.ID
  | .dynamicnode x => x.ID

/-- Resource token of the record type of a body. -/
def Body.resource : Body → String
  | .application _ => "applications"
  | .deployment _ => "deployments"
  | .microservice _ => "microservices"
  | .node _ => "nodes"
  | .region _ => "regions"
  | .relationship _ => "relationships"
  | .externalendpoint _ => "externalendpoints"
  | .dynamicnode _ => "dynamicnodes"

/-- Decoding the text of a file as JSON into the record type of a resource token
(`json.Unmarshal` into `models.X`); `none` for a token that names no record type. -/
def Env.unmarshal (env : Env) (resource str : String) : Option (Except String Body) :=
  if resource = "applications" then some ((env.UnmarshalApplication str).map .application)
  else if resource = "deployments" then some ((env.UnmarshalDeployment str).map .deployment)
  else if resource = "microservices" then
    some ((env.UnmarshalMicroservice str).map .microservice)
  else if resource = "nodes" then some ((env.UnmarshalNode str).map .node)
  else if resource = "regions" then some ((env.UnmarshalRegion str).map .region)
  else if resource = "relationships" then
    some ((env.UnmarshalRelationship str).map .relationship)
  else if resource = "externalendpoints" then
    some ((env.UnmarshalExternalEndpoint str).map .externalendpoint)
  else if resource = "dynamicnodes" then some ((env.UnmarshalDynamicNode str).map .dynamicnode)
  else none

/-- An environment with two readable files: `node.json` holds a node whose own
identifier is `n7`, `bad.json` holds text that is not JSON. -/
def envFiles : Env :=
  { envUp with
    ReadFile := fun name =>
      if name = "node.json" then .ok "node n7"
      else if name = "bad.json" then .ok "not json"
      else .error ("open " ++ name ++ ": no such file or directory")
    UnmarshalNode := fun str =>
      if str = "node n7" then .ok ⟨"n7", "arm64", "", "", "r1", "", "", "", "", "", "", ""⟩
      else .error "invalid character in literal" }

/-- Context of `put nodes --id n1 --file node.json`. -/
def putNodeContext : Context :=
  { args := ["nodes"]
    flag := fun n => if n = "id" then "n1" else if n = "file" then "node.json" else "" }

/-- Context of `put nodes --id n1 --file bad.json`. -/
def putBadFileContext : Context :=
  { args := ["nodes"]
    flag := fun n => if n = "id" then "n1" else if n = "file" then "bad.json" else "" }

/-- Context of `put nodes --file node.json`, without `--id`. -/
def putNoIdContext : Context :=
  { args := ["nodes"], flag := fun n => if n = "file" then "node.json" else "" }

/-- Context of `delete nodes`, without `--id`. -/
def deleteNoIdContext : Context := { args := ["nodes"], flag := fun _ => "" }

/-- Field of a body that `putAll` is claimed to key its call by: `Name` for deployments
and for microservices, `ID` for the six other types. -/
def Body.putAllKey : Body → String
  | .application x => x.ID
  | .deployment x => x.Name
  | .microservice x => x.Name
  | .node x => x.ID
  | .region x => x.ID
  | .relationship x => x.ID
  | .externalendpoint x => x.ID
  | .dynamicnode x => x.ID

/-- All items of a descriptor, as bodies. -/
def confFile.items (conf : confFile) : List Body :=
  conf.Applications.map .application ++ conf.Regions.map .region ++
    conf.Deployments.map .deployment ++ conf.Microservices.map .microservice ++
    conf.Nodes.map .node ++ conf.Relationships.map .relationship ++
    conf.ExternalEdpoints.map .externalendpoint ++ conf.DynamicNodes.map .dynamicnode

/-- An application whose first microservice identifier is the empty text. -/
def appEmptyFirst : Application :=
  { ID := "a1", Name := "shop", Description := "", Status := "running"
    Microservices := [⟨""⟩, ⟨"m2"⟩] }

/-- A region whose first relationship identifier is the empty text. -/
def regionEmptyFirst : Region :=
  { ID := "r1", Description := "", Location := "", Tier := 1, Prices := none
    Relationships := [⟨""⟩, ⟨"rel2"⟩] }

/-- What one `if resp, ok := any.(T); ok` block of `printData` does with a value:
`none` when the type test fails and the block is skipped, `some none` when the block
is entered and panics, `some (some out)` when it is entered and writes `out`. -/
abbrev BlockResult := Option (Option (List Out))

/-- The sixteen blocks of `printData` in source order, each with its own type test;
the body of a block is what `printData` does for the response type it tests for. -/
def printDataBlocks (env : Env) : List (Any → BlockResult) :=
  [
    fun any => match any with
      | .GetApplicationsOK x => some (printData env (.GetApplicationsOK x))
      | _ => none,
    fun any => match any with
      | .GetApplicationsIDOK x => some (printData env (.GetApplicationsIDOK x))
      | _ => none,
    fun any => match any with
      | .GetDeploymentsOK x => some (printData env (.GetDeploymentsOK x))
      | _ => none,
    fun any => match any with
      | .GetDeploymentsNameOK x => some (printData env (.GetDeploymentsNameOK x))
      | _ => none,
    fun any => match any with
      | .GetMicroservicesOK x => some (printData env (.GetMicroservicesOK x))
      | _ => none,
    fun any => match any with
      | .GetMicroservicesIDOK x => some (printData env (.GetMicroservicesIDOK x))
      | _ => none,
    fun any => match any with
      | .GetNodesOK x => some (printData env (.GetNodesOK x))
      | _ => none,
    fun any => match any with
      | .GetNodesIDOK x => some (printData env (.GetNodesIDOK x))
      | _ => none,
    fun any => match any with
      | .GetRegionsOK x => some (printData env (.GetRegionsOK x))
      | _ => none,
    fun any => match any with
      | .GetRegionsIDOK x => some (printData env (.GetRegionsIDOK x))
      | _ => none,
    fun any => match any with
      | .GetRelationshipsOK x => some (printData env (.GetRelationshipsOK x))
      | _ => none,
    fun any => match any with
      | .GetRelationshipsIDOK x => some (printData env (.GetRelationshipsIDOK x))
      | _ => none,
    fun any => match any with
      | .GetExternalendpointsOK x => some (printData env (.GetExternalendpointsOK x))
      | _ => none,
    fun any => match any with
      | .GetExternalendpointsIDOK x => some (printData env (.GetExternalendpointsIDOK x))
      | _ => none,
    fun any => match any with
      | .GetDynamicnodesOK x => some (printData env (.GetDynamicnodesOK x))
      | _ => none,
    fun any => match any with
      | .GetDynamicnodesIDOK x => some (printData env (.GetDynamicnodesIDOK x))
      | _ => none ]

/-- Running blocks one after the other, as the body of `printData` does: a skipped
block writes nothing, a panic ends the run, and otherwise the texts written follow
each other. -/
def runBlocks : List (Any → BlockResult) → Any → Option (List Out)
  | [], _ => some []
  | b :: bs, any =>
    match b any with
    | none => runBlocks bs any
    | some none => none
    | some (some out) => (runBlocks bs any).map (fun more => out ++ more)

/-- A block was entered: its type test succeeded. -/
def BlockResult.entered (r : BlockResult) : Bool := r.isSome

/-- A block produced output: it was entered, did not panic and wrote something. -/
def BlockResult.producedOutput : BlockResult → Bool
  | some (some (_ :: _)) => true
  | _ => false

/-- The value is one of the sixteen response shapes `printData` tests for. -/
def Any.recognised : Any → Bool
  | .nil => false
  | .other _ => false
  | _ => true

/-- A region without a price breakdown. -/
def regionNoPrices : Region :=
  { ID := "r1", Description := "edge", Location := "", Tier := 1, Prices := none
    Relationships := [] }

/-- The response of a get or list operation as the dynamic value handed to
`printData`: the `...OK` value of the Go type the operation returns. -/
def Op.asAny : (op : Op) → op.Resp → Any
  | .GetApplicationsID _, r => .GetApplicationsIDOK r
  | .GetApplications, r => .GetApplicationsOK r
  | .GetDeploymentsName _, r => .GetDeploymentsNameOK r
  | .GetDeployments _, r => .GetDeploymentsOK r
  | .GetMicroservicesID _, r => .GetMicroservicesIDOK r
  | .GetMicroservices _, r => .GetMicroservicesOK r
  | .GetNodesID _, r => .GetNodesIDOK r
  | .GetNodes _, r => .GetNodesOK r
  | .GetRegionsID _, r => .GetRegionsIDOK r
  | .GetRegions, r => .GetRegionsOK r
  | .GetRelationshipsID _, r => .GetRelationshipsIDOK r
  | .GetRelationships _, r => .GetRelationshipsOK r
  | .GetExternalendpointsID _, r => .GetExternalendpointsIDOK r
  | .GetExternalendpoints _, r => .GetExternalendpointsOK r
  | .GetDynamicnodesID _, r => .GetDynamicnodesIDOK r
  | .GetDynamicnodes _, r => .GetDynamicnodesOK r
  | _, _ => .other "OK"

/-- Words by which the messages of `handleGet` name a resource type: the token itself,
written `external endpoints` for external endpoints. -/
def getLabel (resource : String) : String :=
  if resource = "externalendpoints" then "external endpoints" else resource

/-- Context of `get regions --id r1`. -/
def getRegionContext : Context :=
  { args := ["regions"], flag := fun n => if n = "id" then "r1" else "" }

/-- Context of `deleteAll dynamicnodes` in which the option `region_id` reads `r1`. -/
def deleteAllDynContext : Context :=
  { args := ["dynamicnodes"], flag := fun n => if n = "region_id" then "r1" else "" }

/-- The words `deleteAll dynamicnodes --region_id r1` as they reach the action when
the parser, finding no declared option of that name, leaves them among the positional
arguments. -/
def deleteAllRegionLine : CommandLine :=
  { command := .deleteAll, options := [], args := ["dynamicnodes", "--region_id", "r1"] }

/-- Headers of the tables written, in the order they are written. -/
def tableHeaders : List Out → List (List String)
  | [] => []
  | .table header _ :: rest => header :: tableHeaders rest
  | .text _ :: rest => tableHeaders rest

/-- Data rows of the tables written, table by table, in the order they are written. -/
def tableRows : List Out → List (List (List String))
  | [] => []
  | .table _ rows :: rest => rows :: tableRows rest
  | .text _ :: rest => tableRows rest

/-- Resource type a response shape belongs to; none for nil and foreign values. -/
def Any.resourceOf : Any → Option String
  | .GetApplicationsOK _ | .GetApplicationsIDOK _ => some "applications"
  | .GetDeploymentsOK _ | .GetDeploymentsNameOK _ => some "deployments"
  | .GetMicroservicesOK _ | .GetMicroservicesIDOK _ => some "microservices"
  | .GetNodesOK _ | .GetNodesIDOK _ => some "nodes"
  | .GetRegionsOK _ | .GetRegionsIDOK _ => some "regions"
  | .GetRelationshipsOK _ | .GetRelationshipsIDOK _ => some "relationships"
  | .GetExternalendpointsOK _ | .GetExternalendpointsIDOK _ => some "externalendpoints"
  | .GetDynamicnodesOK _ | .GetDynamicnodesIDOK _ => some "dynamicnodes"
  | .nil | .other _ => none

/-- The value is a list response. -/
def Any.isList : Any → Bool
  | .GetApplicationsOK _ | .GetDeploymentsOK _ | .GetMicroservicesOK _ | .GetNodesOK _
  | .GetRegionsOK _ | .GetRelationshipsOK _ | .GetExternalendpointsOK _
  | .GetDynamicnodesOK _ => true
  | _ => false

/-- The single-item response for an item. -/
def Body.single : Body → Any
  | .application x => .GetApplicationsIDOK x
  | .deployment x => .GetDeploymentsNameOK x
  | .microservice x => .GetMicroservicesIDOK x
  | .node x => .GetNodesIDOK x
  | .region x => .GetRegionsIDOK x
  | .relationship x => .GetRelationshipsIDOK x
  | .externalendpoint x => .GetExternalendpointsIDOK x
  | .dynamicnode x => .GetDynamicnodesIDOK x

/-- The list response whose only element is the item. -/
def Body.listOfOne : Body → Any
  | .application x => .GetApplicationsOK [x]
  | .deployment x => .GetDeploymentsOK [x]
  | .microservice x => .GetMicroservicesOK [x]
  | .node x => .GetNodesOK [x]
  | .region x => .GetRegionsOK [x]
  | .relationship x => .GetRelationshipsOK [x]
  | .externalendpoint x => .GetExternalendpointsOK [x]
  | .dynamicnode x => .GetDynamicnodesOK [x]

/-- The item is a region or a relationship without a price breakdown. -/
def Body.pricesAbsent : Body → Bool
  | .region x => x.Prices.isNone
  | .relationship x => x.Prices.isNone
  | _ => false

/-- A relationship without a price breakdown. -/
def relationshipNoPrices : Relationship :=
  { ID := "rel1", EndpointA := "n1", EndpointB := "n2", RegionID := "r1"
    BandwidthCapacity := 100, BandwidthAvailable := 80, Latency := 5, Prices := none
    Status := "up" }

/-- Two deployments: `web` with two microservices and one dataflow, `db` with one
microservice and no dataflow. -/
def sampleDeployments : List Deployment :=
  [{ Name := "web", Description := "", Status := "running", ExternalendpointID := "e1"
     Microservices := [⟨"front", "", "1", "1", "1", "r1", "", ⟨0⟩, ⟨0⟩, ""⟩,
       ⟨"api", "", "2", "2", "2", "r1", "", ⟨0⟩, ⟨0⟩, ""⟩]
     Dataflows := [⟨"front", "api", 10, 5⟩] },
   { Name := "db", Description := "", Status := "running", ExternalendpointID := ""
     Microservices := [⟨"store", "", "4", "8", "16", "r2", "", ⟨0⟩, ⟨0⟩, ""⟩]
     Dataflows := [] }]

/-- The three slices `data`, `datams` and `datadf` that `printData` fills while it
walks a deployments list. -/
structure DeploymentTables where
  data : List (List String)
  datams : List (List String)
  datadf : List (List String)
  deriving DecidableEq, Repr

/-- One pass of the loop over the deployments of a list response: a row is appended
to `datams` for each microservice of the deployment, then a row to `datadf` for each
of its dataflows, then the row of the deployment to `data`. -/
def deploymentsStep (env : Env) (t : DeploymentTables) (depl : Deployment) :
    DeploymentTables :=
  { data := t.data ++ [deploymentRow depl]
    datams := depl.Microservices.foldl (fun acc ms => acc ++ [deploymentMsRow env depl ms])
      t.datams
    datadf := depl.Dataflows.foldl (fun acc df => acc ++ [deploymentDfRow depl df]) t.datadf }

/-- The loop over the deployments of a list response, started with three empty
slices. -/
def deploymentsLoop (env : Env) (depls : List Deployment) : DeploymentTables :=
  depls.foldl (deploymentsStep env) { data := [], datams := [], datadf := [] }

/-- A platform holding the nodes `n1` and `n2` that accepts a delete only for a listed
identifier that has not been deleted before in the run, and refuses every other
delete. -/
def submitStrictNodes (prior : List Op) : (op : Op) → Except String op.Resp
  | .GetNodes _ =>
    .ok ([⟨"n1", "", "", "", "", "", "", "", "", "", "", ""⟩,
      ⟨"n2", "", "", "", "", "", "", "", "", "", "", ""⟩] : List Node)
  | .DeleteNodesID id =>
    if (id = "n1" ∨ id = "n2") ∧ Op.DeleteNodesID id ∉ prior then .ok (⟨""⟩ : OK)
    else .error "not found"
  | .DeleteApplicationsID _ => .error "not found"
  | .DeleteDeploymentsName _ => .error "not found"
  | .DeleteMicroservicesID _ => .error "not found"
  | .DeleteRegionsID _ => .error "not found"
  | .DeleteRelationshipsID _ => .error "not found"
  | .DeleteExternalendpointsID _ => .error "not found"
  | .DeleteDynamicnodesID _ => .error "not found"
  | op => .ok (op.sampleResp "")

/-- The environment of `submitStrictNodes`. -/
def envStrictNodes : Env := envWith submitStrictNodes

/-! # Theorems -/

/-! ## Bulk load -/

/-- Calls of one bulk loop: the calls so far, followed by one call per item in list
order, whatever the platform answers. -/
theorem putLoop_calls {α : Type} (step : List Op → α → Op × Except String OK) (mk : α → Op)
    (hstep : ∀ prior x, (step prior x).1 = mk x) (items : List α) (r : Run) :
    (putLoop step items r).calls = r.calls ++ items.map mk := by
  induction items generalizing r with
  | nil => simp [putLoop]
  | cons x rest ih =>
    have hx := hstep r.calls x
    unfold putLoop
    rcases hs : step r.calls x with ⟨op, res⟩
    rw [hs] at hx
    cases res <;> simp_all

/-- A bulk loop leaves the way the handler ends untouched. -/
theorem putLoop_result {α : Type} (step : List Op → α → Op × Except String OK)
    (items : List α) (r : Run) : (putLoop step items r).result = r.result := by
  induction items generalizing r with
  | nil => simp [putLoop]
  | cons x rest ih =>
    unfold putLoop
    rcases hs : step r.calls x with ⟨op, res⟩
    cases res <;> simp [ih]

/-- Calls of the eight loops together. -/
theorem putAllLoops_calls (env : Env) (conf : confFile) (r : Run) :
    (putAllLoops env conf r).calls = r.calls ++ expectedPutAllCalls conf := by
  simp only [putAllLoops, expectedPutAllCalls]
  rw [putLoop_calls _ (fun x => Op.PutDynamicnodesID x.ID x) (fun _ _ => rfl),
    putLoop_calls _ (fun x => Op.PutExternalendpointsID x.ID x) (fun _ _ => rfl),
    putLoop_calls _ (fun x => Op.PutRelationshipsID x.ID x) (fun _ _ => rfl),
    putLoop_calls _ (fun x => Op.PutNodesID x.ID x) (fun _ _ => rfl),
    putLoop_calls _ (fun x => Op.PutMicroservicesID x.Name x) (fun _ _ => rfl),
    putLoop_calls _ (fun x => Op.PutDeploymentsName x.Name x) (fun _ _ => rfl),
    putLoop_calls _ (fun x => Op.PutRegionsID x.ID x) (fun _ _ => rfl),
    putLoop_calls _ (fun x => Op.PutApplicationsID x.ID x) (fun _ _ => rfl)]
  simp [List.append_assoc]

/-- C1: for every descriptor that parses and every behaviour of the platform,
`handlePutAll` issues exactly one upsert call per item of the descriptor, all
applications first, then regions, deployments, microservices, nodes, relationships,
external endpoints and dynamic nodes, each list in its own order; the number of calls
is the number of items, so no failure removes or reorders a later call. -/
theorem handlePutAll_issues_all_upserts (env : Env) (c : Context) (conf : confFile)
    (hfile : c.GetString "file" ≠ "")
    (hparse : parseYAML env (c.GetString "file") = .ok conf) :
    (handlePutAll env c).calls = expectedPutAllCalls conf ∧
      (handlePutAll env c).calls.length = conf.size := by
  have hcalls : (handlePutAll env c).calls = expectedPutAllCalls conf := by
    simp [handlePutAll, hfile, hparse, putAllLoops_calls]
  refine ⟨hcalls, ?_⟩
  rw [hcalls]
  simp [expectedPutAllCalls, confFile.size]
  omega

/-- Worked instance of C1: six items, the second, fourth and sixth call refused. -/
theorem handlePutAll_issues_all_upserts_witness :
    bulkContext.GetString "file" ≠ "" ∧
      parseYAML envBulk (bulkContext.GetString "file") = .ok sampleConf ∧
      (handlePutAll envBulk bulkContext).calls =
        [Op.PutApplicationsID "a1" ⟨"a1", "shop", "", "", []⟩,
          Op.PutApplicationsID "a2" ⟨"a2", "blog", "", "", []⟩,
          Op.PutRegionsID "r1" ⟨"r1", "", "", 1, none, []⟩,
          Op.PutDeploymentsName "dep1" ⟨"dep1", "", "", "", [], []⟩,
          Op.PutMicroservicesID "frontend" ⟨"m1", "frontend", "", "a1", "", "", ""⟩,
          Op.PutDynamicnodesID "d1" ⟨"d1", "10.0.0.7", "n1", "r1"⟩] ∧
      (handlePutAll envBulk bulkContext).calls.length = 6 :=
  ⟨by decide, rfl,
    (handlePutAll_issues_all_upserts envBulk bulkContext sampleConf (by decide) rfl).1,
    (handlePutAll_issues_all_upserts envBulk bulkContext sampleConf (by decide) rfl).2⟩

/-! ## Get -/

/-- Whatever the platform answers, a branch of `handleGet` issues its one call. -/
theorem getAndPrint_calls (env : Env) (op : Op) (failed : String) (wrap : op.Resp → Any) :
    (getAndPrint env op failed wrap).calls = [op] := by
  unfold getAndPrint
  split
  · rfl
  · split <;> rfl

/-- C2: for each of the eight resource tokens and every non-empty `--id` value,
whatever the other options hold and whatever the platform answers, `handleGet` issues
exactly one call: the fetch by identifier of that resource type, keyed by the `--id`
value; in particular no list call is issued. -/
theorem handleGet_by_id (env : Env) (c : Context) (tok X : String)
    (htok : tok ∈ Command.ArgsUsage .get) (harg : c.Get 0 = tok)
    (hid : c.GetString "id" = X) (hX : X ≠ "") :
    ∃ op, (handleGet env c).calls = [op] ∧ op.verb = .get ∧ op.resource = tok ∧
      op.key = some X ∧ ∀ o ∈ (handleGet env c).calls, o.verb ≠ .list := by
  subst hid
  simp only [Command.ArgsUsage, List.mem_cons, List.mem_singleton, List.not_mem_nil,
    or_false] at htok
  rcases htok with h | h | h | h | h | h | h | h <;> subst h <;>
    simp [handleGet, harg, hX, getAndPrint_calls, Op.verb, Op.resource, Op.key]

/-- Worked instance of C2: `get deployments --id web --status running`. -/
theorem handleGet_by_id_witness :
    ("deployments" ∈ Command.ArgsUsage .get ∧ getByIdContext.Get 0 = "deployments" ∧
      getByIdContext.GetString "id" = "web" ∧ "web" ≠ "") ∧
    ∃ op, (handleGet envDown getByIdContext).calls = [op] ∧ op.verb = .get ∧
      op.resource = "deployments" ∧ op.key = some "web" ∧
      ∀ o ∈ (handleGet envDown getByIdContext).calls, o.verb ≠ .list :=
  ⟨⟨by decide, by decide, by decide, by decide⟩,
    handleGet_by_id envDown getByIdContext "deployments" "web" (by decide) (by decide)
      (by decide) (by decide)⟩

/-- C3: for each of the eight resource tokens, `handleGet` with an empty `--id` issues
exactly one call, the list call of that resource type; its filter field is set
exactly when the option that narrows that type (`filterFlag`) exists and is
non-empty, and then holds the option value; the list requests for applications and
regions never carry a filter. -/
theorem handleGet_list (env : Env) (c : Context) (tok : String)
    (htok : tok ∈ Command.ArgsUsage .get) (harg : c.Get 0 = tok)
    (hid : c.GetString "id" = "") :
    ∃ op, (handleGet env c).calls = [op] ∧ op.verb = .list ∧ op.resource = tok ∧
      (∀ v, op.filter = some v ↔
        ∃ f, filterFlag tok = some f ∧ c.GetString f ≠ "" ∧ v = c.GetString f) ∧
      (tok = "applications" ∨ tok = "regions" → op.filter = none) := by
  simp only [Command.ArgsUsage, List.mem_cons, List.mem_singleton, List.not_mem_nil,
    or_false] at htok
  rcases htok with h | h | h | h | h | h | h | h <;> subst h <;>
    simp [handleGet, harg, hid, getAndPrint_calls, Op.verb, Op.resource, Op.filter,
      filterFlag, optionalField] <;>
    (intro v _; exact eq_comm)

/-- Worked instance of C3: `get nodes --region_id r1 --node_id n9`. -/
theorem handleGet_list_witness :
    ("nodes" ∈ Command.ArgsUsage .get ∧ getListContext.Get 0 = "nodes" ∧
      getListContext.GetString "id" = "") ∧
    ∃ op, (handleGet envDown getListContext).calls = [op] ∧ op.verb = .list ∧
      op.resource = "nodes" ∧
      (∀ v, op.filter = some v ↔ ∃ f, filterFlag "nodes" = some f ∧
        getListContext.GetString f ≠ "" ∧ v = getListContext.GetString f) ∧
      ("nodes" = "applications" ∨ "nodes" = "regions" → op.filter = none) :=
  ⟨⟨by decide, by decide, by decide⟩,
    handleGet_list envDown getListContext "nodes" (by decide) (by decide) (by decide)⟩

/-! ## Unknown resource tokens -/

/-- The message of the `default` case names the token. -/
theorem unknownResource_names_token (tok : String) :
    ∃ msg, (unknownResource tok).result = .error msg ∧ containsToken msg tok ∧
      (unknownResource tok).calls = [] := by
  refine ⟨_, rfl, ?_, rfl⟩
  simp only [containsToken, String.data_append]
  exact ⟨"Error: resource specificed (".data, ") is unkwnown".data, rfl⟩

/-- Tokens outside the documented list reach the `default` case of `handleGet`,
`handlePut`, `handlePatch` and `handleDeleteAll`; in `handleDelete` they do so unless
the token is the label spelled with a blank. -/
theorem unknown_token_default (env : Env) (c : Context) (tok : String) (harg : c.Get 0 = tok) :
    (tok ∉ Command.ArgsUsage .get → handleGet env c = unknownResource tok) ∧
    (tok ∉ Command.ArgsUsage .put → handlePut env c = unknownResource tok) ∧
    (tok ∉ Command.ArgsUsage .patch → handlePatch env c = unknownResource tok) ∧
    (tok ∉ Command.ArgsUsage .deleteAll → handleDeleteAll env c = unknownResource tok) ∧
    (tok ∉ Command.ArgsUsage .delete → tok ≠ "external endpoints" →
      handleDelete env c = unknownResource tok) := by
  refine ⟨?_, ?_, ?_, ?_, ?_⟩
  · intro h
    simp only [Command.ArgsUsage, List.mem_cons, List.mem_singleton, List.not_mem_nil,
      or_false, not_or] at h
    simp [handleGet, harg, h, unknownResource]
  · intro h
    simp only [Command.ArgsUsage, List.mem_cons, List.mem_singleton, List.not_mem_nil,
      or_false, not_or] at h
    simp [handlePut, harg, h, unknownResource]
  · intro h
    simp only [Command.ArgsUsage, List.mem_cons, List.mem_singleton, List.not_mem_nil,
      or_false, not_or] at h
    simp [handlePatch, harg, h, unknownResource]
  · intro h
    simp only [Command.ArgsUsage, List.mem_cons, List.mem_singleton, List.not_mem_nil,
      or_false, not_or] at h
    simp [handleDeleteAll, harg, h, unknownResource]
  · intro h hblank
    simp only [Command.ArgsUsage, List.mem_cons, List.mem_singleton, List.not_mem_nil,
      or_false, not_or] at h
    simp [handleDelete, harg, h, hblank, unknownResource]

/-- C4, at `delete "external endpoints" --id e1`: the token is none of the resource
types of the delete command, yet `handleDelete` reports no error and issues the
delete call for external endpoints. -/
theorem handleDelete_accepts_blank_token :
    "external endpoints" ∉ Command.ArgsUsage .delete ∧
      handleDelete envUp deleteBlankContext =
        { calls := [Op.DeleteExternalendpointsID "e1"], out := [.text "\n"], result := .ok } := by
  constructor
  · decide
  · decide

/-! ## Delete -/

/-- A case of `handleDelete` with a non-empty `--id` issues its one call. -/
theorem deleteByID_calls (c : Context) (op : Op) (res : Except String OK) (failed : String)
    (hid : c.GetString "id" ≠ "") : (deleteByID c (op, res) failed).calls = [op] := by
  unfold deleteByID
  cases res <;> simp [hid]

/-- For the seven tokens other than `externalendpoints` and every non-empty `--id`
value, `handleDelete` issues exactly the delete call of that type keyed by the value. -/
theorem handleDelete_by_id (env : Env) (c : Context) (tok X : String)
    (htok : tok ∈ Command.ArgsUsage .delete) (hne : tok ≠ "externalendpoints")
    (harg : c.Get 0 = tok) (hid : c.GetString "id" = X) (hX : X ≠ "") :
    ∃ op, (handleDelete env c).calls = [op] ∧ op.verb = .delete ∧ op.resource = tok ∧
      op.key = some X := by
  subst hid
  simp only [Command.ArgsUsage, List.mem_cons, List.mem_singleton, List.not_mem_nil,
    or_false] at htok
  rcases htok with h | h | h | h | h | h | h | h <;> subst h <;>
    first
    | exact absurd rfl hne
    | (simp [handleDelete, harg, Env.send]
       exact ⟨_, deleteByID_calls _ _ _ _ hX, rfl, rfl, rfl⟩)

/-- C5, at the token `externalendpoints`: the token is a documented resource type of
the delete command, yet for every platform and every option values `handleDelete`
reports it as unknown and issues no call. -/
theorem handleDelete_rejects_externalendpoints (env : Env) (flag : String → String) :
    "externalendpoints" ∈ Command.ArgsUsage .delete ∧
      handleDelete env ⟨["externalendpoints"], flag⟩ =
        { result := .error "Error: resource specificed (externalendpoints) is unkwnown" } := by
  constructor
  · decide
  · simp [handleDelete, Context.Get]

/-! ## DeleteAll -/

/-- C6, at `deleteAll applications` on a platform that lists `a1`, `a2` and refuses
to delete `a1`: the handler returns the error of that delete and never issues the
delete call for `a2`. -/
theorem handleDeleteAll_applications_stops :
    envFirstDeleteFails.submit [] Op.GetApplications =
        .ok ([⟨"a1", "shop", "", "", []⟩, ⟨"a2", "blog", "", "", []⟩] : List Application) ∧
      handleDeleteAll envFirstDeleteFails deleteAllApplicationsContext =
        { calls := [Op.GetApplications, Op.DeleteApplicationsID "a1"],
          result := .error "Error: delete applications failed: connection refused" } ∧
      Op.DeleteApplicationsID "a2" ∉
        (handleDeleteAll envFirstDeleteFails deleteAllApplicationsContext).calls := by
  refine ⟨rfl, ?_, ?_⟩
  · decide
  · decide

/-- The sibling case `deleteAll nodes` on the same platform: the failed delete is
printed and the loop goes on to evaluate `Error()` on the nil response; the delete
call for `n2` is issued when that method tolerates a nil response, and the process
panics before it when the method does not. -/
theorem handleDeleteAll_nodes_after_failure :
    handleDeleteAll envFirstDeleteFailsTolerant deleteAllNodesContext =
        { calls := [Op.GetNodes none, Op.DeleteNodesID "n1", Op.DeleteNodesID "n2"],
          out := [.text "Error: delete nodes failed: connection refused", .text "<nil>\n",
            .text "\n"],
          result := .ok } ∧
      handleDeleteAll envFirstDeleteFails deleteAllNodesContext =
        { calls := [Op.GetNodes none, Op.DeleteNodesID "n1"],
          out := [.text "Error: delete nodes failed: connection refused"],
          result := .panic } := by
  constructor
  · decide
  · decide

/-- When every delete succeeds, the loop of the applications case issues one delete
per item, in order, and leaves the way the handler ends untouched. -/
theorem deleteLoopReturning_all_ok {α : Type} (step : List Op → α → Op × Except String OK)
    (failed : String) (mk : α → Op)
    (hstep : ∀ prior x, ∃ resp, step prior x = (mk x, .ok resp)) (items : List α) (r : Run) :
    (deleteLoopReturning step failed items r).calls = r.calls ++ items.map mk ∧
      (deleteLoopReturning step failed items r).result = r.result := by
  induction items generalizing r with
  | nil => simp [deleteLoopReturning]
  | cons x rest ih =>
    obtain ⟨resp, hs⟩ := hstep r.calls x
    unfold deleteLoopReturning
    rw [hs]
    simp [ih]

/-- When every delete succeeds, the loop of the seven other cases issues one delete
per item, in order, and leaves the way the handler ends untouched. -/
theorem deleteLoopPrinting_all_ok {α : Type} (env : Env)
    (step : List Op → α → Op × Except String OK) (failed : String) (mk : α → Op)
    (hstep : ∀ prior x, ∃ resp, step prior x = (mk x, .ok resp)) (items : List α) (r : Run) :
    (deleteLoopPrinting env step failed items r).calls = r.calls ++ items.map mk ∧
      (deleteLoopPrinting env step failed items r).result = r.result := by
  induction items generalizing r with
  | nil => simp [deleteLoopPrinting]
  | cons x rest ih =>
    obtain ⟨resp, hs⟩ := hstep r.calls x
    unfold deleteLoopPrinting
    rw [hs]
    simp [ih]

/-- A list of keys and the delete calls built from them, item by item. -/
theorem forall₂_keys_map {α : Type} (tok : String) (items : List α) (keyOf : α → String)
    (mk : α → Op)
    (hmk : ∀ x, (mk x).verb = .delete ∧ (mk x).resource = tok ∧ (mk x).key = some (keyOf x)) :
    List.Forall₂ (fun k op => op.verb = .delete ∧ op.resource = tok ∧ op.key = some k)
      (items.map keyOf) (items.map mk) := by
  rw [List.forall₂_map_left_iff, List.forall₂_map_right_iff, List.forall₂_same]
  intro x _
  exact hmk x

/-- On the platform of `envTwoNodes` every delete call succeeds. -/
theorem envTwoNodes_deletes_succeed (prior : List Op) (op : Op) (h : op.verb = .delete) :
    ∃ r, envTwoNodes.submit prior op = .ok r := by
  cases op <;> simp [Op.verb] at h <;> exact ⟨_, rfl⟩

/-- The delete loop of the applications case keeps the calls issued before it. -/
theorem deleteLoopReturning_calls_prefix {α : Type}
    (step : List Op → α → Op × Except String OK) (failed : String) (items : List α) (r : Run) :
    r.calls <+: (deleteLoopReturning step failed items r).calls := by
  induction items generalizing r with
  | nil => simp [deleteLoopReturning]
  | cons x rest ih =>
    unfold deleteLoopReturning
    rcases hs : step r.calls x with ⟨op, res⟩
    cases res with
    | error err => exact List.prefix_append _ _
    | ok resp =>
      exact (List.prefix_append r.calls [op]).trans
        (ih { r with calls := r.calls ++ [op], out := r.out ++ [.text (resp.Error ++ "\n")] })

/-- The delete loop of the seven other cases keeps the calls issued before it. -/
theorem deleteLoopPrinting_calls_prefix {α : Type} (env : Env)
    (step : List Op → α → Op × Except String OK) (failed : String) (items : List α) (r : Run) :
    r.calls <+: (deleteLoopPrinting env step failed items r).calls := by
  induction items generalizing r with
  | nil => simp [deleteLoopPrinting]
  | cons x rest ih =>
    unfold deleteLoopPrinting
    rcases hs : step r.calls x with ⟨op, res⟩
    cases res with
    | error err =>
      simp only
      cases env.nilError with
      | none => exact List.prefix_append _ _
      | some s =>
        exact (List.prefix_append r.calls [op]).trans
          (ih { r with calls := r.calls ++ [op],
                       out := r.out ++ [.text (failed ++ err), .text (s ++ "\n")] })
    | ok resp =>
      exact (List.prefix_append r.calls [op]).trans
        (ih { r with calls := r.calls ++ [op], out := r.out ++ [.text (resp.Error ++ "\n")] })

/-- If every call the loop of the applications case has issued was answered with
success, the loop issued one call per item, in order, and left the way the handler
ends untouched.  `S prior op` stands for: the call `op`, issued after the calls
`prior`, succeeded. -/
theorem deleteLoopReturning_issued_ok {α : Type} (step : List Op → α → Op × Except String OK)
    (failed : String) (mk : α → Op) (S : List Op → Op → Prop)
    (hmk : ∀ prior x, (step prior x).1 = mk x)
    (hok : ∀ prior x, S prior (mk x) → ∃ resp, (step prior x).2 = .ok resp)
    (items : List α) (r : Run)
    (H : ∀ prior op, prior ++ [op] <+: (deleteLoopReturning step failed items r).calls →
      r.calls.length ≤ prior.length → S prior op) :
    (deleteLoopReturning step failed items r).calls = r.calls ++ items.map mk ∧
      (deleteLoopReturning step failed items r).result = r.result := by
  induction items generalizing r with
  | nil => simp [deleteLoopReturning]
  | cons x rest ih =>
    have hx := hmk r.calls x
    unfold deleteLoopReturning at H ⊢
    rcases hs : step r.calls x with ⟨op, res⟩
    rw [hs] at hx H
    simp only at hx
    subst hx
    cases res with
    | error err =>
      obtain ⟨resp, hresp⟩ := hok r.calls x (H r.calls _ (List.prefix_refl _) (le_refl _))
      rw [hs] at hresp
      simp at hresp
    | ok resp =>
      simp only at H ⊢
      have h2 := ih { r with calls := r.calls ++ [mk x],
                             out := r.out ++ [.text (resp.Error ++ "\n")] }
        (fun prior op hp hlen => H prior op hp (by
          simp only [List.length_append, List.length_singleton] at hlen
          omega))
      simpa [List.append_assoc] using h2

/-- If every call the loop of the seven other cases has issued was answered with
success, the loop issued one call per item, in order, and left the way the handler
ends untouched. -/
theorem deleteLoopPrinting_issued_ok {α : Type} (env : Env)
    (step : List Op → α → Op × Except String OK) (failed : String) (mk : α → Op)
    (S : List Op → Op → Prop)
    (hmk : ∀ prior x, (step prior x).1 = mk x)
    (hok : ∀ prior x, S prior (mk x) → ∃ resp, (step prior x).2 = .ok resp)
    (items : List α) (r : Run)
    (H : ∀ prior op, prior ++ [op] <+: (deleteLoopPrinting env step failed items r).calls →
      r.calls.length ≤ prior.length → S prior op) :
    (deleteLoopPrinting env step failed items r).calls = r.calls ++ items.map mk ∧
      (deleteLoopPrinting env step failed items r).result = r.result := by
  induction items generalizing r with
  | nil => simp [deleteLoopPrinting]
  | cons x rest ih =>
    have hx := hmk r.calls x
    have hpre : r.calls ++ [(step r.calls x).1] <+:
        (deleteLoopPrinting env step failed (x :: rest) r).calls := by
      unfold deleteLoopPrinting
      rcases hs : step r.calls x with ⟨op, res⟩
      cases res with
      | error err =>
        simp only
        cases env.nilError with
        | none => exact List.prefix_refl _
        | some s =>
          exact deleteLoopPrinting_calls_prefix env step failed rest
            { r with calls := r.calls ++ [op],
                     out := r.out ++ [.text (failed ++ err), .text (s ++ "\n")] }
      | ok resp =>
        exact deleteLoopPrinting_calls_prefix env step failed rest
          { r with calls := r.calls ++ [op], out := r.out ++ [.text (resp.Error ++ "\n")] }
    rw [hx] at hpre
    obtain ⟨resp, hresp⟩ := hok r.calls x (H r.calls _ hpre (le_refl _))
    have hs : step r.calls x = (mk x, .ok resp) := Prod.ext hx hresp
    unfold deleteLoopPrinting at H ⊢
    rw [hs] at H ⊢
    simp only at H ⊢
    have h2 := ih { r with calls := r.calls ++ [mk x],
                           out := r.out ++ [.text (resp.Error ++ "\n")] }
      (fun prior op hp hlen => H prior op hp (by
        simp only [List.length_append, List.length_singleton] at hlen
        omega))
    simpa [List.append_assoc] using h2

/-- A case of `handleDeleteAll` issues its list call first; when that call succeeds
and every call issued after it was answered with success, the calls after it are the
ones the loop makes for the listed items, and the handler returns no error. -/
theorem listThen_issued_ok (env : Env) (lop : Op) (failed : String)
    (loop : lop.Resp → Run → Run) (dels : lop.Resp → List Op) (S : List Op → Op → Prop)
    (hloop : ∀ resp r,
      (∀ prior op, prior ++ [op] <+: (loop resp r).calls → r.calls.length ≤ prior.length →
        S prior op) →
      (loop resp r).calls = r.calls ++ dels resp ∧ (loop resp r).result = r.result)
    (H : ∀ prior op, prior ++ [op] <+: (listThen env lop failed loop).calls →
      1 ≤ prior.length → S prior op) :
    ∃ more, (listThen env lop failed loop).calls = lop :: more ∧
      ∀ resp, env.submit [] lop = .ok resp →
        more = dels resp ∧ (listThen env lop failed loop).result = .ok := by
  unfold listThen at H ⊢
  cases hsub : env.submit [] lop with
  | error err => exact ⟨[], rfl, fun resp h => by cases h⟩
  | ok items =>
    rw [hsub] at H
    obtain ⟨h1, h2⟩ := hloop items { calls := [lop], result := .ok } H
    refine ⟨dels items, by simpa using h1, fun resp h => ?_⟩
    cases h
    exact ⟨rfl, h2⟩

/-- C7: for each of the eight resource tokens `handleDeleteAll` issues the list call
of that type first; when the list call succeeds with n items and every delete call
the handler issues is answered with success, the list call is followed by exactly n
delete calls, the j-th keyed by the identifier of the j-th returned item (`Name` for
deployments, `ID` for the others), in the order of the response, and the handler
returns no error. -/
theorem handleDeleteAll_deletes_each (env : Env) (c : Context) (tok : String)
    (htok : tok ∈ Command.ArgsUsage .deleteAll) (harg : c.Get 0 = tok)
    (hdel : ∀ prior op, prior ++ [op] <+: (handleDeleteAll env c).calls →
      op.verb = .delete → ∃ r, env.submit prior op = .ok r) :
    ∃ lop more, (handleDeleteAll env c).calls = lop :: more ∧ lop.verb = .list ∧
      lop.resource = tok ∧
      ∀ resp, env.submit [] lop = .ok resp →
        more.length = (listedKeys lop resp).length ∧
          List.Forall₂ (fun k op => op.verb = .delete ∧ op.resource = tok ∧ op.key = some k)
            (listedKeys lop resp) more ∧
          (handleDeleteAll env c).result = .ok := by
  simp only [Command.ArgsUsage, List.mem_cons, List.mem_singleton, List.not_mem_nil,
    or_false] at htok
  rcases htok with h | h | h | h | h | h | h | h <;> subst h
  · have hrun : handleDeleteAll env c = listThen env (Op.GetApplications)
        "Error: get applications failed: "
        (deleteLoopReturning
        (fun prior (app : Application) => env.send prior (.DeleteApplicationsID app.ID))
        "Error: delete applications failed: ") := by
      simp [handleDeleteAll, harg]
    rw [hrun] at hdel ⊢
    obtain ⟨more, hcalls, hall⟩ := listThen_issued_ok env (Op.GetApplications)
      "Error: get applications failed: "
      (deleteLoopReturning
        (fun prior (app : Application) => env.send prior (.DeleteApplicationsID app.ID))
        "Error: delete applications failed: ")
      (fun (resp : List Application) => resp.map (fun (app : Application) => Op.DeleteApplicationsID app.ID))
      (fun prior op => op.verb = .delete → ∃ r, env.submit prior op = .ok r)
      (fun resp r Hr =>
        deleteLoopReturning_issued_ok
          (fun prior (app : Application) => env.send prior (.DeleteApplicationsID app.ID))
          "Error: delete applications failed: "
          (fun (app : Application) => Op.DeleteApplicationsID app.ID) _ (fun _ _ => rfl)
          (fun prior x hs => by
            obtain ⟨r, hr⟩ := hs rfl
            exact ⟨r, by simp [Env.send, hr]⟩)
          resp r Hr)
      (fun prior op hp _ => hdel prior op hp)
    refine ⟨Op.GetApplications, more, hcalls, rfl, rfl, fun resp hresp => ?_⟩
    obtain ⟨h1, h2⟩ := hall resp hresp
    refine ⟨by simp [h1, listedKeys], ?_, h2⟩
    rw [h1]
    exact forall₂_keys_map _ resp _ _ (fun _ => ⟨rfl, rfl, rfl⟩)
  · have hrun : handleDeleteAll env c = listThen env (Op.GetMicroservices none)
        "Error: get microservices failed: "
        (deleteLoopPrinting env
        (fun prior (ms : Microservice) => env.send prior (.DeleteMicroservicesID ms.ID))
        "Error: delete microservices failed: ") := by
      simp [handleDeleteAll, harg]
    rw [hrun] at hdel ⊢
    obtain ⟨more, hcalls, hall⟩ := listThen_issued_ok env (Op.GetMicroservices none)
      "Error: get microservices failed: "
      (deleteLoopPrinting env
        (fun prior (ms : Microservice) => env.send prior (.DeleteMicroservicesID ms.ID))
        "Error: delete microservices failed: ")
      (fun (resp : List Microservice) => resp.map (fun (ms : Microservice) => Op.DeleteMicroservicesID ms.ID))
      (fun prior op => op.verb = .delete → ∃ r, env.submit prior op = .ok r)
      (fun resp r Hr =>
        deleteLoopPrinting_issued_ok env
          (fun prior (ms : Microservice) => env.send prior (.DeleteMicroservicesID ms.ID))
          "Error: delete microservices failed: "
          (fun (ms : Microservice) => Op.DeleteMicroservicesID ms.ID) _ (fun _ _ => rfl)
          (fun prior x hs => by
            obtain ⟨r, hr⟩ := hs rfl
            exact ⟨r, by simp [Env.send, hr]⟩)
          resp r Hr)
      (fun prior op hp _ => hdel prior op hp)
    refine ⟨Op.GetMicroservices none, more, hcalls, rfl, rfl, fun resp hresp => ?_⟩
    obtain ⟨h1, h2⟩ := hall resp hresp
    refine ⟨by simp [h1, listedKeys], ?_, h2⟩
    rw [h1]
    exact forall₂_keys_map _ resp _ _ (fun _ => ⟨rfl, rfl, rfl⟩)
  · have hrun : handleDeleteAll env c = listThen env (Op.GetNodes none)
        "Error: get nodes failed: "
        (deleteLoopPrinting env
        (fun prior (node : Node) => env.send prior (.DeleteNodesID node.ID))
        "Error: delete nodes failed: ") := by
      simp [handleDeleteAll, harg]
    rw [hrun] at hdel ⊢
    obtain ⟨more, hcalls, hall⟩ := listThen_issued_ok env (Op.GetNodes none)
      "Error: get nodes failed: "
      (deleteLoopPrinting env
        (fun prior (node : Node) => env.send prior (.DeleteNodesID node.ID))
        "Error: delete nodes failed: ")
      (fun (resp : List Node) => resp.map (fun (node : Node) => Op.DeleteNodesID node.ID))
      (fun prior op => op.verb = .delete → ∃ r, env.submit prior op = .ok r)
      (fun resp r Hr =>
        deleteLoopPrinting_issued_ok env
          (fun prior (node : Node) => env.send prior (.DeleteNodesID node.ID))
          "Error: delete nodes failed: "
          (fun (node : Node) => Op.DeleteNodesID node.ID) _ (fun _ _ => rfl)
          (fun prior x hs => by
            obtain ⟨r, hr⟩ := hs rfl
            exact ⟨r, by simp [Env.send, hr]⟩)
          resp r Hr)
      (fun prior op hp _ => hdel prior op hp)
    refine ⟨Op.GetNodes none, more, hcalls, rfl, rfl, fun resp hresp => ?_⟩
    obtain ⟨h1, h2⟩ := hall resp hresp
    refine ⟨by simp [h1, listedKeys], ?_, h2⟩
    rw [h1]
    exact forall₂_keys_map _ resp _ _ (fun _ => ⟨rfl, rfl, rfl⟩)
  · have hrun : handleDeleteAll env c = listThen env (Op.GetRegions)
        "Error: get regions failed: "
        (deleteLoopPrinting env
        (fun prior (reg : Region) => env.send prior (.DeleteRegionsID reg.ID))
        "Error: delete regions failed: ") := by
      simp [handleDeleteAll, harg]
    rw [hrun] at hdel ⊢
    obtain ⟨more, hcalls, hall⟩ := listThen_issued_ok env (Op.GetRegions)
      "Error: get regions failed: "
      (deleteLoopPrinting env
        (fun prior (reg : Region) => env.send prior (.DeleteRegionsID reg.ID))
        "Error: delete regions failed: ")
      (fun (resp : List Region) => resp.map (fun (reg : Region) => Op.DeleteRegionsID reg.ID))
      (fun prior op => op.verb = .delete → ∃ r, env.submit prior op = .ok r)
      (fun resp r Hr =>
        deleteLoopPrinting_issued_ok env
          (fun prior (reg : Region) => env.send prior (.DeleteRegionsID reg.ID))
          "Error: delete regions failed: "
          (fun (reg : Region) => Op.DeleteRegionsID reg.ID) _ (fun _ _ => rfl)
          (fun prior x hs => by
            obtain ⟨r, hr⟩ := hs rfl
            exact ⟨r, by simp [Env.send, hr]⟩)
          resp r Hr)
      (fun prior op hp _ => hdel prior op hp)
    refine ⟨Op.GetRegions, more, hcalls, rfl, rfl, fun resp hresp => ?_⟩
    obtain ⟨h1, h2⟩ := hall resp hresp
    refine ⟨by simp [h1, listedKeys], ?_, h2⟩
    rw [h1]
    exact forall₂_keys_map _ resp _ _ (fun _ => ⟨rfl, rfl, rfl⟩)
  · have hrun : handleDeleteAll env c = listThen env (Op.GetRelationships none)
        "Error: get relationships failed: "
        (deleteLoopPrinting env
        (fun prior (rel : Relationship) => env.send prior (.DeleteRelationshipsID rel.ID))
        "Error: delete relationships failed: ") := by
      simp [handleDeleteAll, harg]
    rw [hrun] at hdel ⊢
    obtain ⟨more, hcalls, hall⟩ := listThen_issued_ok env (Op.GetRelationships none)
      "Error: get relationships failed: "
      (deleteLoopPrinting env
        (fun prior (rel : Relationship) => env.send prior (.DeleteRelationshipsID rel.ID))
        "Error: delete relationships failed: ")
      (fun (resp : List Relationship) => resp.map (fun (rel : Relationship) => Op.DeleteRelationshipsID rel.ID))
      (fun prior op => op.verb = .delete → ∃ r, env.submit prior op = .ok r)
      (fun resp r Hr =>
        deleteLoopPrinting_issued_ok env
          (fun prior (rel : Relationship) => env.send prior (.DeleteRelationshipsID rel.ID))
          "Error: delete relationships failed: "
          (fun (rel : Relationship) => Op.DeleteRelationshipsID rel.ID) _ (fun _ _ => rfl)
          (fun prior x hs => by
            obtain ⟨r, hr⟩ := hs rfl
            exact ⟨r, by simp [Env.send, hr]⟩)
          resp r Hr)
      (fun prior op hp _ => hdel prior op hp)
    refine ⟨Op.GetRelationships none, more, hcalls, rfl, rfl, fun resp hresp => ?_⟩
    obtain ⟨h1, h2⟩ := hall resp hresp
    refine ⟨by simp [h1, listedKeys], ?_, h2⟩
    rw [h1]
    exact forall₂_keys_map _ resp _ _ (fun _ => ⟨rfl, rfl, rfl⟩)
  · have hrun : handleDeleteAll env c = listThen env (Op.GetExternalendpoints none)
        "Error: get external endpoints failed: "
        (deleteLoopPrinting env
        (fun prior (ee : ExternalEndpoint) => env.send prior (.DeleteExternalendpointsID ee.ID))
        "Error: delete external endpoints failed: ") := by
      simp [handleDeleteAll, harg]
    rw [hrun] at hdel ⊢
    obtain ⟨more, hcalls, hall⟩ := listThen_issued_ok env (Op.GetExternalendpoints none)
      "Error: get external endpoints failed: "
      (deleteLoopPrinting env
        (fun prior (ee : ExternalEndpoint) => env.send prior (.DeleteExternalendpointsID ee.ID))
        "Error: delete external endpoints failed: ")
      (fun (resp : List ExternalEndpoint) => resp.map (fun (ee : ExternalEndpoint) => Op.DeleteExternalendpointsID ee.ID))
      (fun prior op => op.verb = .delete → ∃ r, env.submit prior op = .ok r)
      (fun resp r Hr =>
        deleteLoopPrinting_issued_ok env
          (fun prior (ee : ExternalEndpoint) => env.send prior (.DeleteExternalendpointsID ee.ID))
          "Error: delete external endpoints failed: "
          (fun (ee : ExternalEndpoint) => Op.DeleteExternalendpointsID ee.ID) _ (fun _ _ => rfl)
          (fun prior x hs => by
            obtain ⟨r, hr⟩ := hs rfl
            exact ⟨r, by simp [Env.send, hr]⟩)
          resp r Hr)
      (fun prior op hp _ => hdel prior op hp)
    refine ⟨Op.GetExternalendpoints none, more, hcalls, rfl, rfl, fun resp hresp => ?_⟩
    obtain ⟨h1, h2⟩ := hall resp hresp
    refine ⟨by simp [h1, listedKeys], ?_, h2⟩
    rw [h1]
    exact forall₂_keys_map _ resp _ _ (fun _ => ⟨rfl, rfl, rfl⟩)
  · have hrun : handleDeleteAll env c = listThen env (Op.GetDynamicnodes (optionalField (c.GetString "region_id")))
        "Error: get dynamicnodes failed: "
        (deleteLoopPrinting env
        (fun prior (dnode : DynamicNode) => env.send prior (.DeleteDynamicnodesID dnode.ID))
        "Error: delete dynamicnodes failed: ") := by
      simp [handleDeleteAll, harg]
    rw [hrun] at hdel ⊢
    obtain ⟨more, hcalls, hall⟩ := listThen_issued_ok env (Op.GetDynamicnodes (optionalField (c.GetString "region_id")))
      "Error: get dynamicnodes failed: "
      (deleteLoopPrinting env
        (fun prior (dnode : DynamicNode) => env.send prior (.DeleteDynamicnodesID dnode.ID))
        "Error: delete dynamicnodes failed: ")
      (fun (resp : List DynamicNode) => resp.map (fun (dnode : DynamicNode) => Op.DeleteDynamicnodesID dnode.ID))
      (fun prior op => op.verb = .delete → ∃ r, env.submit prior op = .ok r)
      (fun resp r Hr =>
        deleteLoopPrinting_issued_ok env
          (fun prior (dnode : DynamicNode) => env.send prior (.DeleteDynamicnodesID dnode.ID))
          "Error: delete dynamicnodes failed: "
          (fun (dnode : DynamicNode) => Op.DeleteDynamicnodesID dnode.ID) _ (fun _ _ => rfl)
          (fun prior x hs => by
            obtain ⟨r, hr⟩ := hs rfl
            exact ⟨r, by simp [Env.send, hr]⟩)
          resp r Hr)
      (fun prior op hp _ => hdel prior op hp)
    refine ⟨Op.GetDynamicnodes (optionalField (c.GetString "region_id")), more, hcalls, rfl, rfl, fun resp hresp => ?_⟩
    obtain ⟨h1, h2⟩ := hall resp hresp
    refine ⟨by simp [h1, listedKeys], ?_, h2⟩
    rw [h1]
    exact forall₂_keys_map _ resp _ _ (fun _ => ⟨rfl, rfl, rfl⟩)
  · have hrun : handleDeleteAll env c = listThen env (Op.GetDeployments none)
        "Error: get deployments failed: "
        (deleteLoopPrinting env
        (fun prior (depl : Deployment) => env.send prior (.DeleteDeploymentsName depl.Name))
        "Error: delete deployment failed: ") := by
      simp [handleDeleteAll, harg]
    rw [hrun] at hdel ⊢
    obtain ⟨more, hcalls, hall⟩ := listThen_issued_ok env (Op.GetDeployments none)
      "Error: get deployments failed: "
      (deleteLoopPrinting env
        (fun prior (depl : Deployment) => env.send prior (.DeleteDeploymentsName depl.Name))
        "Error: delete deployment failed: ")
      (fun (resp : List Deployment) => resp.map (fun (depl : Deployment) => Op.DeleteDeploymentsName depl.Name))
      (fun prior op => op.verb = .delete → ∃ r, env.submit prior op = .ok r)
      (fun resp r Hr =>
        deleteLoopPrinting_issued_ok env
          (fun prior (depl : Deployment) => env.send prior (.DeleteDeploymentsName depl.Name))
          "Error: delete deployment failed: "
          (fun (depl : Deployment) => Op.DeleteDeploymentsName depl.Name) _ (fun _ _ => rfl)
          (fun prior x hs => by
            obtain ⟨r, hr⟩ := hs rfl
            exact ⟨r, by simp [Env.send, hr]⟩)
          resp r Hr)
      (fun prior op hp _ => hdel prior op hp)
    refine ⟨Op.GetDeployments none, more, hcalls, rfl, rfl, fun resp hresp => ?_⟩
    obtain ⟨h1, h2⟩ := hall resp hresp
    refine ⟨by simp [h1, listedKeys], ?_, h2⟩
    rw [h1]
    exact forall₂_keys_map _ resp _ _ (fun _ => ⟨rfl, rfl, rfl⟩)

/-- On the platform of `envStrictNodes` the run of `deleteAll nodes` issues the list
call and the two delete calls. -/
theorem envStrictNodes_run :
    (handleDeleteAll envStrictNodes deleteAllNodesContext).calls =
      [Op.GetNodes none, Op.DeleteNodesID "n1", Op.DeleteNodesID "n2"] := by
  decide

/-- On the platform of `envStrictNodes` every delete call the run of `deleteAll nodes`
issues succeeds, although the platform refuses deletes of unknown and of repeated
identifiers. -/
theorem envStrictNodes_issued_succeed (prior : List Op) (op : Op)
    (hp : prior ++ [op] <+: (handleDeleteAll envStrictNodes deleteAllNodesContext).calls)
    (hv : op.verb = .delete) : ∃ r, envStrictNodes.submit prior op = .ok r := by
  rw [envStrictNodes_run] at hp
  obtain ⟨t, ht⟩ := hp
  rcases prior with _ | ⟨p1, _ | ⟨p2, _ | ⟨p3, rest⟩⟩⟩
  · simp at ht
    rw [ht.1] at hv
    simp [Op.verb] at hv
  · simp at ht
    obtain ⟨h1, h2, -⟩ := ht
    subst h1 h2
    exact ⟨⟨""⟩, rfl⟩
  · simp at ht
    obtain ⟨h1, h2, h3, -⟩ := ht
    subst h1 h2 h3
    exact ⟨⟨""⟩, rfl⟩
  · simp at ht

/-- Worked instance of C7: `deleteAll nodes` on a platform holding `n1` and `n2` that
refuses deletes of unknown and of repeated identifiers. -/
theorem handleDeleteAll_deletes_each_witness :
    ("nodes" ∈ Command.ArgsUsage .deleteAll ∧ deleteAllNodesContext.Get 0 = "nodes" ∧
      (∀ prior op,
        prior ++ [op] <+: (handleDeleteAll envStrictNodes deleteAllNodesContext).calls →
        op.verb = .delete → ∃ r, envStrictNodes.submit prior op = .ok r) ∧
      (∃ e, envStrictNodes.submit [Op.DeleteNodesID "n1"] (Op.DeleteNodesID "n1") =
        .error e)) ∧
    (handleDeleteAll envStrictNodes deleteAllNodesContext).calls =
      [Op.GetNodes none, Op.DeleteNodesID "n1", Op.DeleteNodesID "n2"] ∧
    ∃ lop more, (handleDeleteAll envStrictNodes deleteAllNodesContext).calls = lop :: more ∧
      lop.verb = .list ∧ lop.resource = "nodes" ∧
      ∀ resp, envStrictNodes.submit [] lop = .ok resp →
        more.length = (listedKeys lop resp).length ∧
          List.Forall₂ (fun k op => op.verb = .delete ∧ op.resource = "nodes" ∧ op.key = some k)
            (listedKeys lop resp) more ∧
          (handleDeleteAll envStrictNodes deleteAllNodesContext).result = .ok :=
  ⟨⟨by decide, by decide, envStrictNodes_issued_succeed, ⟨"not found", rfl⟩⟩,
    envStrictNodes_run,
    handleDeleteAll_deletes_each envStrictNodes deleteAllNodesContext "nodes" (by decide)
      (by decide) envStrictNodes_issued_succeed⟩

/-- A case of `handleDeleteAll` issues its list call first, whatever follows. -/
theorem listThen_calls_head (env : Env) (lop : Op) (failed : String)
    (loop : lop.Resp → Run → Run) (hloop : ∀ resp r, r.calls <+: (loop resp r).calls) :
    ∃ more, (listThen env lop failed loop).calls = lop :: more := by
  unfold listThen
  cases env.submit [] lop with
  | error err => exact ⟨[], rfl⟩
  | ok resp =>
    obtain ⟨t, ht⟩ := hloop resp { calls := [lop], result := .ok }
    exact ⟨t, by simpa using ht.symm⟩

/-- C8: for each of the eight resource tokens `handleDeleteAll` issues the list call
of that type first, and if that list call fails then the handler returns an error
and the list call is the only call it issued: no delete call is made. -/
theorem handleDeleteAll_list_failure (env : Env) (c : Context) (tok : String)
    (htok : tok ∈ Command.ArgsUsage .deleteAll) (harg : c.Get 0 = tok) :
    ∃ lop more, (handleDeleteAll env c).calls = lop :: more ∧ lop.verb = .list ∧
      lop.resource = tok ∧
      ∀ e, env.submit [] lop = .error e →
        (handleDeleteAll env c).calls = [lop] ∧
          (∃ msg, (handleDeleteAll env c).result = .error msg) ∧
          ∀ o ∈ (handleDeleteAll env c).calls, o.verb ≠ .delete := by
  simp only [Command.ArgsUsage, List.mem_cons, List.mem_singleton, List.not_mem_nil,
    or_false] at htok
  rcases htok with h | h | h | h | h | h | h | h <;> subst h
  · obtain ⟨more, hm⟩ := listThen_calls_head env (Op.GetApplications)
      "Error: get applications failed: "
      (deleteLoopReturning
        (fun prior (app : Application) => env.send prior (.DeleteApplicationsID app.ID))
        "Error: delete applications failed: ")
      (fun resp r => deleteLoopReturning_calls_prefix _ _ resp r)
    exact ⟨Op.GetApplications, more, by simpa [handleDeleteAll, harg] using hm, rfl, rfl, fun e he => by
      simp [handleDeleteAll, harg, listThen, he, Op.verb]⟩
  · obtain ⟨more, hm⟩ := listThen_calls_head env (Op.GetMicroservices none)
      "Error: get microservices failed: "
      (deleteLoopPrinting env
        (fun prior (ms : Microservice) => env.send prior (.DeleteMicroservicesID ms.ID))
        "Error: delete microservices failed: ")
      (fun resp r => deleteLoopPrinting_calls_prefix env _ _ resp r)
    exact ⟨Op.GetMicroservices none, more, by simpa [handleDeleteAll, harg] using hm, rfl, rfl, fun e he => by
      simp [handleDeleteAll, harg, listThen, he, Op.verb]⟩
  · obtain ⟨more, hm⟩ := listThen_calls_head env (Op.GetNodes none)
      "Error: get nodes failed: "
      (deleteLoopPrinting env
        (fun prior (node : Node) => env.send prior (.DeleteNodesID node.ID))
        "Error: delete nodes failed: ")
      (fun resp r => deleteLoopPrinting_calls_prefix env _ _ resp r)
    exact ⟨Op.GetNodes none, more, by simpa [handleDeleteAll, harg] using hm, rfl, rfl, fun e he => by
      simp [handleDeleteAll, harg, listThen, he, Op.verb]⟩
  · obtain ⟨more, hm⟩ := listThen_calls_head env (Op.GetRegions)
      "Error: get regions failed: "
      (deleteLoopPrinting env
        (fun prior (reg : Region) => env.send prior (.DeleteRegionsID reg.ID))
        "Error: delete regions failed: ")
      (fun resp r => deleteLoopPrinting_calls_prefix env _ _ resp r)
    exact ⟨Op.GetRegions, more, by simpa [handleDeleteAll, harg] using hm, rfl, rfl, fun e he => by
      simp [handleDeleteAll, harg, listThen, he, Op.verb]⟩
  · obtain ⟨more, hm⟩ := listThen_calls_head env (Op.GetRelationships none)
      "Error: get relationships failed: "
      (deleteLoopPrinting env
        (fun prior (rel : Relationship) => env.send prior (.DeleteRelationshipsID rel.ID))
        "Error: delete relationships failed: ")
      (fun resp r => deleteLoopPrinting_calls_prefix env _ _ resp r)
    exact ⟨Op.GetRelationships none, more, by simpa [handleDeleteAll, harg] using hm, rfl, rfl, fun e he => by
      simp [handleDeleteAll, harg, listThen, he, Op.verb]⟩
  · obtain ⟨more, hm⟩ := listThen_calls_head env (Op.GetExternalendpoints none)
      "Error: get external endpoints failed: "
      (deleteLoopPrinting env
        (fun prior (ee : ExternalEndpoint) => env.send prior (.DeleteExternalendpointsID ee.ID))
        "Error: delete external endpoints failed: ")
      (fun resp r => deleteLoopPrinting_calls_prefix env _ _ resp r)
    exact ⟨Op.GetExternalendpoints none, more, by simpa [handleDeleteAll, harg] using hm, rfl, rfl, fun e he => by
      simp [handleDeleteAll, harg, listThen, he, Op.verb]⟩
  · obtain ⟨more, hm⟩ := listThen_calls_head env (Op.GetDynamicnodes (optionalField (c.GetString "region_id")))
      "Error: get dynamicnodes failed: "
      (deleteLoopPrinting env
        (fun prior (dnode : DynamicNode) => env.send prior (.DeleteDynamicnodesID dnode.ID))
        "Error: delete dynamicnodes failed: ")
      (fun resp r => deleteLoopPrinting_calls_prefix env _ _ resp r)
    exact ⟨Op.GetDynamicnodes (optionalField (c.GetString "region_id")), more, by simpa [handleDeleteAll, harg] using hm, rfl, rfl, fun e he => by
      simp [handleDeleteAll, harg, listThen, he, Op.verb]⟩
  · obtain ⟨more, hm⟩ := listThen_calls_head env (Op.GetDeployments none)
      "Error: get deployments failed: "
      (deleteLoopPrinting env
        (fun prior (depl : Deployment) => env.send prior (.DeleteDeploymentsName depl.Name))
        "Error: delete deployment failed: ")
      (fun resp r => deleteLoopPrinting_calls_prefix env _ _ resp r)
    exact ⟨Op.GetDeployments none, more, by simpa [handleDeleteAll, harg] using hm, rfl, rfl, fun e he => by
      simp [handleDeleteAll, harg, listThen, he, Op.verb]⟩

/-- Worked instance of C8: `deleteAll nodes` on a platform that refuses every call. -/
theorem handleDeleteAll_list_failure_witness :
    ("nodes" ∈ Command.ArgsUsage .deleteAll ∧ deleteAllNodesContext.Get 0 = "nodes") ∧
    handleDeleteAll envDown deleteAllNodesContext =
      { calls := [Op.GetNodes none],
        result := .error "Error: get nodes failed: connection refused" } ∧
    ∃ lop more, (handleDeleteAll envDown deleteAllNodesContext).calls = lop :: more ∧
      lop.verb = .list ∧ lop.resource = "nodes" ∧
      ∀ e, envDown.submit [] lop = .error e →
        (handleDeleteAll envDown deleteAllNodesContext).calls = [lop] ∧
          (∃ msg, (handleDeleteAll envDown deleteAllNodesContext).result = .error msg) ∧
          ∀ o ∈ (handleDeleteAll envDown deleteAllNodesContext).calls, o.verb ≠ .delete :=
  ⟨⟨by decide, by decide⟩, by decide,
    handleDeleteAll_list_failure envDown deleteAllNodesContext "nodes" (by decide) (by decide)⟩

/-! ## Exit status -/

/-- C9 as stated fails at `get bogus`: the handler returns an error and the exit
status produced by `main` is zero. -/
theorem exit_zero_after_handler_error :
    (Command.Action .get envDown (contextOf getBogusLine)).result =
        .error "Error: resource specificed (bogus) is unkwnown" ∧
      (main envDown getBogusLine).exitStatus = 0 ∧
      ¬ (main envDown getBogusLine).exitStatus ≠ 0 := by
  refine ⟨?_, ?_, ?_⟩ <;> decide

/-- C9, amended: whenever the application run returns, with an error or without,
the exit status produced by `main` is zero; a returned error is printed on standard
output, followed by a newline, after whatever the handler printed. -/
theorem main_exit_status (env : Env) (cl : CommandLine)
    (hret : (appRun env cl).result ≠ .panic) :
    (main env cl).exitStatus = 0 ∧
      ((appRun env cl).result = .ok → (main env cl).stdout = (appRun env cl).out) ∧
      ∀ msg, (appRun env cl).result = .error msg →
        (main env cl).stdout = (appRun env cl).out ++ [.text (msg ++ "\n")] := by
  unfold main
  cases h : (appRun env cl).result <;> simp_all

/-- Worked instance of amended C9: `get bogus`. -/
theorem main_exit_status_witness :
    (appRun envDown getBogusLine).result ≠ .panic ∧
    (main envDown getBogusLine).exitStatus = 0 ∧
      ((appRun envDown getBogusLine).result = .ok →
        (main envDown getBogusLine).stdout = (appRun envDown getBogusLine).out) ∧
      ∀ msg, (appRun envDown getBogusLine).result = .error msg →
        (main envDown getBogusLine).stdout =
          (appRun envDown getBogusLine).out ++ [.text (msg ++ "\n")] :=
  ⟨by decide, main_exit_status envDown getBogusLine (by decide)⟩

/-! ## Error messages -/

/-- C10, at `putAll --file missing.yaml` with no such file: `handlePutAll` returns the
error of the file system as it is, and that message does not start with `Error: `. -/
theorem handlePutAll_raw_parse_error :
    handlePutAll envDown missingFileContext =
        { reads := ["missing.yaml"],
          result := .error "open missing.yaml: no such file or directory" } ∧
      ¬ startsWith "open missing.yaml: no such file or directory" "Error: " := by
  constructor
  · decide
  · decide

/-- A text that begins with `pre` still does so after more text is appended. -/
theorem startsWith_append (a b pre : String) (h : startsWith a pre) :
    startsWith (a ++ b) pre := by
  unfold startsWith at *
  rw [String.data_append]
  exact h.trans (List.prefix_append _ _)

/-- Errors of a branch of `handleGet` begin like its wrapping text. -/
theorem getAndPrint_error (env : Env) (op : Op) (failed : String) (wrap : op.Resp → Any)
    (msg : String) (h : (getAndPrint env op failed wrap).result = .error msg)
    (hf : startsWith failed "Error: ") : startsWith msg "Error: " := by
  unfold getAndPrint at h
  split at h
  · simp at h
    subst h
    exact startsWith_append _ _ _ hf
  · split at h <;> simp at h

/-- Errors of a case of `handlePut` begin with `Error: `. -/
theorem putFromFile_error {α : Type} (env : Env) (c : Context)
    (decode : String → Except String α) (send : α → Op × Except String OK) (failed msg : String)
    (h : (putFromFile env c decode send failed).result = .error msg)
    (hf : startsWith failed "Error: ") : startsWith msg "Error: " := by
  unfold putFromFile at h
  split at h
  · simp at h
    subst h
    decide
  · split at h
    · simp at h
      subst h
      exact startsWith_append _ _ _
        (startsWith_append _ _ _ (startsWith_append _ _ _ (by decide)))
    · split at h
      · simp at h
        subst h
        exact startsWith_append _ _ _ (by decide)
      · split at h
        · simp at h
          subst h
          exact startsWith_append _ _ _ (startsWith_append _ _ _ hf)
        · simp at h

/-- Errors of a case of `handleDelete` begin with `Error: `. -/
theorem deleteByID_error (c : Context) (send : Op × Except String OK) (failed msg : String)
    (h : (deleteByID c send failed).result = .error msg)
    (hf : startsWith failed "Error: ") : startsWith msg "Error: " := by
  unfold deleteByID at h
  split at h
  · simp at h
    subst h
    decide
  · split at h
    · simp at h
      subst h
      exact startsWith_append _ _ _ hf
    · simp at h

/-- An error left by the delete loop of the applications case is the one the run
already carried or begins like the wrapping text. -/
theorem deleteLoopReturning_error {α : Type} (step : List Op → α → Op × Except String OK)
    (failed msg : String) (hf : startsWith failed "Error: ") (items : List α) (r : Run)
    (h : (deleteLoopReturning step failed items r).result = .error msg) :
    r.result = .error msg ∨ startsWith msg "Error: " := by
  induction items generalizing r with
  | nil => exact Or.inl (by simpa [deleteLoopReturning] using h)
  | cons x rest ih =>
    unfold deleteLoopReturning at h
    rcases hs : step r.calls x with ⟨op, res⟩
    rw [hs] at h
    cases res with
    | error err =>
      simp at h
      subst h
      exact Or.inr (startsWith_append _ _ _ hf)
    | ok resp =>
      simp only at h
      rcases ih _ h with h2 | h2
      · exact Or.inl h2
      · exact Or.inr h2

/-- The delete loop of the seven other cases never produces an error of its own. -/
theorem deleteLoopPrinting_error {α : Type} (env : Env)
    (step : List Op → α → Op × Except String OK) (failed msg : String) (items : List α)
    (r : Run) (h : (deleteLoopPrinting env step failed items r).result = .error msg) :
    r.result = .error msg := by
  induction items generalizing r with
  | nil => simpa [deleteLoopPrinting] using h
  | cons x rest ih =>
    unfold deleteLoopPrinting at h
    rcases hs : step r.calls x with ⟨op, res⟩
    rw [hs] at h
    cases res with
    | error err =>
      simp only at h
      split at h
      · simp at h
      · have h2 := ih _ h
        exact h2
    | ok resp =>
      simp only at h
      have h2 := ih _ h
      exact h2

/-- The message of the `default` case begins with `Error: `. -/
theorem unknownResource_error (tok msg : String)
    (h : ({ result := .error ("Error: resource specificed (" ++ tok ++ ") is unkwnown") } :
      Run).result = .error msg) : startsWith msg "Error: " := by
  simp at h
  subst h
  exact startsWith_append _ _ _ (startsWith_append _ _ _ (by decide))

/-- Every error returned by `handleGet` begins with `Error: `. -/
theorem handleGet_error (env : Env) (c : Context) (msg : String)
    (h : (handleGet env c).result = .error msg) : startsWith msg "Error: " := by
  simp only [handleGet] at h
  split_ifs at h
  all_goals first
    | exact getAndPrint_error _ _ _ _ _ h (by decide)
    | exact unknownResource_error _ _ h

/-- Every error returned by `handlePut` begins with `Error: `. -/
theorem handlePut_error (env : Env) (c : Context) (msg : String)
    (h : (handlePut env c).result = .error msg) : startsWith msg "Error: " := by
  simp only [handlePut] at h
  split_ifs at h
  all_goals first
    | exact putFromFile_error _ _ _ _ _ _ h (by decide)
    | exact unknownResource_error _ _ h

/-- Every error returned by `handlePatch` begins with `Error: `. -/
theorem handlePatch_error (env : Env) (c : Context) (msg : String)
    (h : (handlePatch env c).result = .error msg) : startsWith msg "Error: " := by
  simp only [handlePatch, Env.send] at h
  split_ifs at h
  · simp at h
    subst h
    decide
  · split at h
    · rename_i heq
      simp at h
      subst h
      exact startsWith_append _ _ _ (startsWith_append _ _ _ (by decide))
    · simp at h
  · exact unknownResource_error _ _ h

/-- Every error returned by `handleDelete` begins with `Error: `. -/
theorem handleDelete_error (env : Env) (c : Context) (msg : String)
    (h : (handleDelete env c).result = .error msg) : startsWith msg "Error: " := by
  simp only [handleDelete] at h
  split_ifs at h
  all_goals first
    | exact deleteByID_error _ _ _ _ h (by decide)
    | exact unknownResource_error _ _ h

/-- Every error returned by `handleDeleteAll` begins with `Error: `. -/
theorem handleDeleteAll_error (env : Env) (c : Context) (msg : String)
    (h : (handleDeleteAll env c).result = .error msg) : startsWith msg "Error: " := by
  simp only [handleDeleteAll] at h
  split_ifs at h
  · unfold listThen at h
    split at h
    · simp at h
      subst h
      exact startsWith_append _ _ _ (by decide)
    · rcases deleteLoopReturning_error _ _ _ (by decide) _ _ h with h2 | h2
      · simp at h2
      · exact h2
  all_goals first
    | exact unknownResource_error _ _ h
    | (unfold listThen at h
       split at h
       · simp at h
         subst h
         exact startsWith_append _ _ _ (by decide)
       · have h2 := deleteLoopPrinting_error _ _ _ _ _ _ h
         simp at h2)

/-- An error returned by `handlePutAll` is the missing-option error, which begins
with `Error: `, or is the error of `parseYAML` handed back unchanged. -/
theorem handlePutAll_error (env : Env) (c : Context) (msg : String)
    (h : (handlePutAll env c).result = .error msg) :
    startsWith msg "Error: " ∨ parseYAML env (c.GetString "file") = .error msg := by
  unfold handlePutAll at h
  split_ifs at h
  · simp at h
    subst h
    exact Or.inl (by decide)
  · split at h
    · rename_i err heq
      simp at h
      subst h
      exact Or.inr heq
    · simp [putAllLoops, putLoop_result] at h

/-! ## Put -/

/-- A case of `handlePut` with a required option missing ends before the file is
read. -/
theorem putFromFile_missing_option {α : Type} (env : Env) (c : Context)
    (decode : String → Except String α) (send : α → Op × Except String OK) (failed : String)
    (h : c.GetString "id" = "" ∨ c.GetString "file" = "") :
    putFromFile env c decode send failed =
      { result := .error "Error: options --id and --file are required" } := by
  simp [putFromFile, h]

/-- C11: if `--id` or `--file` is empty then `handlePut` returns an error, reads no
file and issues no remote call, whatever the resource token; for each of the eight
resource tokens the error is the required-options error. -/
theorem handlePut_requires_id_and_file (env : Env) (c : Context)
    (h : c.GetString "id" = "" ∨ c.GetString "file" = "") :
    (∃ msg, (handlePut env c).result = .error msg) ∧ (handlePut env c).reads = [] ∧
      (handlePut env c).calls = [] ∧
      (c.Get 0 ∈ Command.ArgsUsage .put →
        (handlePut env c).result = .error "Error: options --id and --file are required") := by
  simp only [handlePut]
  split_ifs <;>
    simp_all [putFromFile_missing_option, Command.ArgsUsage]

/-- Worked instance of C11: `put nodes --file node.json` without `--id`. -/
theorem handlePut_requires_id_and_file_witness :
    (putNoIdContext.GetString "id" = "" ∨ putNoIdContext.GetString "file" = "") ∧
    (∃ msg, (handlePut envFiles putNoIdContext).result = .error msg) ∧
      (handlePut envFiles putNoIdContext).reads = [] ∧
      (handlePut envFiles putNoIdContext).calls = [] ∧
      (putNoIdContext.Get 0 ∈ Command.ArgsUsage .put →
        (handlePut envFiles putNoIdContext).result =
          .error "Error: options --id and --file are required") :=
  ⟨by decide, handlePut_requires_id_and_file envFiles putNoIdContext (by decide)⟩

/-- What a case of `handlePut` does once both options are present and the file has
been read. -/
theorem putFromFile_after_read {α : Type} (env : Env) (c : Context)
    (decode : String → Except String α) (send : α → Op × Except String OK) (failed str : String)
    (hid : c.GetString "id" ≠ "") (hfile : c.GetString "file" ≠ "")
    (hread : env.ReadFile (c.GetString "file") = .ok str) :
    putFromFile env c decode send failed =
      match decode str with
      | .error err =>
        { reads := [c.GetString "file"], result := .error ("Error: wrong file format: " ++ err) }
      | .ok d =>
        match send d with
        | (op, .error err) =>
          { calls := [op], reads := [c.GetString "file"],
            result := .error (failed ++ err ++ ")") }
        | (op, .ok resp) =>
          { calls := [op], reads := [c.GetString "file"],
            out := [.text (resp.Error ++ "\n")], result := .ok } := by
  simp [putFromFile, hid, hfile, hread]

/-- C12: for each of the eight resource tokens, with non-empty `--id` and `--file`
and a file that can be read, if the text of the file does not decode as JSON into the
record type of that resource then `handlePut` returns the error
`Error: wrong file format: ` followed by the decoding error, and issues no remote
call. -/
theorem handlePut_wrong_file_format (env : Env) (c : Context) (tok str e : String)
    (htok : tok ∈ Command.ArgsUsage .put) (harg : c.Get 0 = tok)
    (hid : c.GetString "id" ≠ "") (hfile : c.GetString "file" ≠ "")
    (hread : env.ReadFile (c.GetString "file") = .ok str)
    (hdec : env.unmarshal tok str = some (.error e)) :
    (handlePut env c).result = .error ("Error: wrong file format: " ++ e) ∧
      (∀ msg, (handlePut env c).result = .error msg →
        startsWith msg "Error: wrong file format") ∧
      (handlePut env c).calls = [] := by
  have hres : (handlePut env c).result = .error ("Error: wrong file format: " ++ e) ∧
      (handlePut env c).calls = [] := by
    simp only [Command.ArgsUsage, List.mem_cons, List.mem_singleton, List.not_mem_nil,
      or_false] at htok
    rcases htok with h | h | h | h | h | h | h | h <;> subst h <;>
      simp [Env.unmarshal, Except.map] at hdec <;>
      split at hdec <;> simp at hdec <;> subst hdec <;>
      simp [handlePut, harg, putFromFile_after_read _ _ _ _ _ str hid hfile hread, *]
  refine ⟨hres.1, ?_, hres.2⟩
  intro msg hmsg
  rw [hres.1] at hmsg
  simp at hmsg
  subst hmsg
  exact startsWith_append _ _ _ (by decide)

/-- Worked instance of C12: `put nodes --id n1 --file bad.json`. -/
theorem handlePut_wrong_file_format_witness :
    ("nodes" ∈ Command.ArgsUsage .put ∧ putBadFileContext.Get 0 = "nodes" ∧
      putBadFileContext.GetString "id" ≠ "" ∧ putBadFileContext.GetString "file" ≠ "" ∧
      envFiles.ReadFile (putBadFileContext.GetString "file") = .ok "not json" ∧
      envFiles.unmarshal "nodes" "not json" = some (.error "invalid character in literal")) ∧
    (handlePut envFiles putBadFileContext).result =
        .error ("Error: wrong file format: " ++ "invalid character in literal") ∧
      (∀ msg, (handlePut envFiles putBadFileContext).result = .error msg →
        startsWith msg "Error: wrong file format") ∧
      (handlePut envFiles putBadFileContext).calls = [] :=
  ⟨⟨by decide, by decide, by decide, by decide, rfl, rfl⟩,
    handlePut_wrong_file_format envFiles putBadFileContext "nodes" "not json"
      "invalid character in literal" (by decide) (by decide) (by decide) (by decide) rfl rfl⟩

/-- Calls of a case of `handlePut` once the file has been read and decoded. -/
theorem putFromFile_decoded {α : Type} (env : Env) (c : Context)
    (decode : String → Except String α) (send : α → Op × Except String OK) (failed str : String)
    (d : α) (op : Op) (hid : c.GetString "id" ≠ "") (hfile : c.GetString "file" ≠ "")
    (hread : env.ReadFile (c.GetString "file") = .ok str) (hdec : decode str = .ok d)
    (hsend : (send d).1 = op) :
    (putFromFile env c decode send failed).calls = [op] := by
  rw [putFromFile_after_read _ _ _ _ _ str hid hfile hread, hdec]
  rcases hs : send d with ⟨op2, res⟩
  rw [hs] at hsend
  cases res <;> simp_all

/-- C13: for each of the eight resource tokens, when `--id` is X and the file decodes
to a body, `handlePut` issues exactly one call: the upsert of that resource type,
keyed by X and carrying the decoded body unchanged, so the identifier field of the
body sent is the one found in the file, whether or not it equals X. -/
theorem handlePut_keyed_by_flag (env : Env) (c : Context) (tok X str : String) (b : Body)
    (htok : tok ∈ Command.ArgsUsage .put) (harg : c.Get 0 = tok)
    (hid : c.GetString "id" = X) (hX : X ≠ "") (hfile : c.GetString "file" ≠ "")
    (hread : env.ReadFile (c.GetString "file") = .ok str)
    (hdec : env.unmarshal tok str = some (.ok b)) :
    ∃ op, (handlePut env c).calls = [op] ∧ op.verb = .put ∧ op.resource = tok ∧
      op.key = some X ∧ op.body = some b ∧ op.body.map Body.ident = some b.ident := by
  subst hid
  simp only [Command.ArgsUsage, List.mem_cons, List.mem_singleton, List.not_mem_nil,
    or_false] at htok
  rcases htok with h | h | h | h | h | h | h | h <;> subst h <;>
    simp [Env.unmarshal, Except.map] at hdec <;>
    split at hdec <;> simp at hdec <;> subst hdec <;> rename_i x hx
  · refine ⟨.PutApplicationsID (c.GetString "id") x, ?_, rfl, rfl, rfl, rfl, rfl⟩
    simp only [handlePut, harg]
    simp
    exact putFromFile_decoded _ _ _ _ _ str x _ hX hfile hread hx rfl
  · refine ⟨.PutDeploymentsName (c.GetString "id") x, ?_, rfl, rfl, rfl, rfl, rfl⟩
    simp only [handlePut, harg]
    simp
    exact putFromFile_decoded _ _ _ _ _ str x _ hX hfile hread hx rfl
  · refine ⟨.PutMicroservicesID (c.GetString "id") x, ?_, rfl, rfl, rfl, rfl, rfl⟩
    simp only [handlePut, harg]
    simp
    exact putFromFile_decoded _ _ _ _ _ str x _ hX hfile hread hx rfl
  · refine ⟨.PutNodesID (c.GetString "id") x, ?_, rfl, rfl, rfl, rfl, rfl⟩
    simp only [handlePut, harg]
    simp
    exact putFromFile_decoded _ _ _ _ _ str x _ hX hfile hread hx rfl
  · refine ⟨.PutRegionsID (c.GetString "id") x, ?_, rfl, rfl, rfl, rfl, rfl⟩
    simp only [handlePut, harg]
    simp
    exact putFromFile_decoded _ _ _ _ _ str x _ hX hfile hread hx rfl
  · refine ⟨.PutRelationshipsID (c.GetString "id") x, ?_, rfl, rfl, rfl, rfl, rfl⟩
    simp only [handlePut, harg]
    simp
    exact putFromFile_decoded _ _ _ _ _ str x _ hX hfile hread hx rfl
  · refine ⟨.PutExternalendpointsID (c.GetString "id") x, ?_, rfl, rfl, rfl, rfl, rfl⟩
    simp only [handlePut, harg]
    simp
    exact putFromFile_decoded _ _ _ _ _ str x _ hX hfile hread hx rfl
  · refine ⟨.PutDynamicnodesID (c.GetString "id") x, ?_, rfl, rfl, rfl, rfl, rfl⟩
    simp only [handlePut, harg]
    simp
    exact putFromFile_decoded _ _ _ _ _ str x _ hX hfile hread hx rfl

/-- Worked instance of C13: `put nodes --id n1 --file node.json`, where the node in
the file has the identifier `n7`. -/
theorem handlePut_keyed_by_flag_witness :
    ("nodes" ∈ Command.ArgsUsage .put ∧ putNodeContext.Get 0 = "nodes" ∧
      putNodeContext.GetString "id" = "n1" ∧ "n1" ≠ "" ∧
      putNodeContext.GetString "file" ≠ "" ∧
      envFiles.ReadFile (putNodeContext.GetString "file") = .ok "node n7" ∧
      envFiles.unmarshal "nodes" "node n7" =
        some (.ok (.node ⟨"n7", "arm64", "", "", "r1", "", "", "", "", "", "", ""⟩))) ∧
    (handlePut envFiles putNodeContext).calls =
      [Op.PutNodesID "n1" ⟨"n7", "arm64", "", "", "r1", "", "", "", "", "", "", ""⟩] ∧
    ∃ op, (handlePut envFiles putNodeContext).calls = [op] ∧ op.verb = .put ∧
      op.resource = "nodes" ∧ op.key = some "n1" ∧
      op.body = some (.node ⟨"n7", "arm64", "", "", "r1", "", "", "", "", "", "", ""⟩) ∧
      op.body.map Body.ident =
        some (Body.node ⟨"n7", "arm64", "", "", "r1", "", "", "", "", "", "", ""⟩).ident :=
  ⟨⟨by decide, by decide, by decide, by decide, by decide, rfl, rfl⟩, by decide,
    handlePut_keyed_by_flag envFiles putNodeContext "nodes" "n1" "node n7"
      (.node ⟨"n7", "arm64", "", "", "r1", "", "", "", "", "", "", ""⟩)
      (by decide) (by decide) (by decide) (by decide) (by decide) rfl rfl⟩

/-! ## Patch -/

/-- C15: `handlePatch` issues a remote call exactly when the resource token is
`deployments` and both `--id` and `--status` are non-empty, and then it issues the one
status-patch call whose `Name` is the `--id` value and whose status is the `--status`
value; with the token `deployments` and either option empty it returns the
required-options error; with any other token it returns the unknown-resource error. -/
theorem handlePatch_behaviour (env : Env) (c : Context) :
    ((handlePatch env c).calls ≠ [] ↔
      (c.Get 0 = "deployments" ∧ c.GetString "id" ≠ "" ∧ c.GetString "status" ≠ "")) ∧
    ((c.Get 0 = "deployments" ∧ c.GetString "id" ≠ "" ∧ c.GetString "status" ≠ "") →
      (handlePatch env c).calls =
        [Op.PatchDeploymentsName (c.GetString "id") (c.GetString "status")]) ∧
    ((c.Get 0 = "deployments" ∧ (c.GetString "id" = "" ∨ c.GetString "status" = "")) →
      handlePatch env c = { result := .error "Error: options --id and --status are required" }) ∧
    (c.Get 0 ≠ "deployments" →
      handlePatch env c =
        { result := .error ("Error: resource specificed (" ++ c.Get 0 ++ ") is unkwnown") }) := by
  by_cases htok : c.Get 0 = "deployments"
  · by_cases hopt : c.GetString "id" = "" ∨ c.GetString "status" = ""
    · have hrun : handlePatch env c =
          { result := .error "Error: options --id and --status are required" } := by
        simp [handlePatch, htok, hopt]
      refine ⟨?_, ?_, fun _ => hrun, fun h => absurd htok h⟩
      · rw [hrun]
        simp only [ne_eq, not_true_eq_false, false_iff, not_and]
        intro _ h1 h2
        rcases hopt with h | h
        · exact h1 h
        · exact h2 h
      · intro h
        rcases hopt with h1 | h1
        · exact absurd h1 h.2.1
        · exact absurd h1 h.2.2
    · have hcalls : (handlePatch env c).calls =
          [Op.PatchDeploymentsName (c.GetString "id") (c.GetString "status")] := by
        simp only [handlePatch, htok, Env.send]
        simp only [hopt, if_true, if_false]
        split <;> simp_all
      push_neg at hopt
      refine ⟨?_, fun _ => hcalls, fun h => ?_, fun h => absurd htok h⟩
      · rw [hcalls]
        simp [htok, hopt.1, hopt.2]
      · rcases h.2 with h1 | h1
        · exact absurd h1 hopt.1
        · exact absurd h1 hopt.2
  · have hrun : handlePatch env c =
        { result := .error ("Error: resource specificed (" ++ c.Get 0 ++ ") is unkwnown") } := by
      simp [handlePatch, htok]
    refine ⟨?_, fun h => absurd h.1 htok, fun h => absurd h.1 htok, fun _ => hrun⟩
    rw [hrun]
    simp [htok]

/-! ## Delete without an identifier -/

/-- A case of `handleDelete` with an empty `--id` ends before any call. -/
theorem deleteByID_missing_id (c : Context) (send : Op × Except String OK) (failed : String)
    (hid : c.GetString "id" = "") :
    deleteByID c send failed = { result := .error "Error: option --id is required" } := by
  simp [deleteByID, hid]

/-- C16: with an empty `--id`, `handleDelete` returns an error and issues no remote
call, whatever the resource token. -/
theorem handleDelete_requires_id (env : Env) (c : Context) (hid : c.GetString "id" = "") :
    (∃ msg, (handleDelete env c).result = .error msg) ∧ (handleDelete env c).calls = [] := by
  simp only [handleDelete]
  split_ifs <;> simp [deleteByID_missing_id, hid]

/-- Worked instance of C16: `delete nodes` without `--id`. -/
theorem handleDelete_requires_id_witness :
    deleteNoIdContext.GetString "id" = "" ∧
    handleDelete envUp deleteNoIdContext = { result := .error "Error: option --id is required" } ∧
    (∃ msg, (handleDelete envUp deleteNoIdContext).result = .error msg) ∧
      (handleDelete envUp deleteNoIdContext).calls = [] :=
  ⟨by decide, by decide, handleDelete_requires_id envUp deleteNoIdContext (by decide)⟩

/-! ## Bulk load: how the handler ends -/

/-- The eight loops together leave the way the handler ends untouched. -/
theorem putAllLoops_result (env : Env) (conf : confFile) (r : Run) :
    (putAllLoops env conf r).result = r.result := by
  simp [putAllLoops, putLoop_result]

/-- C20: if `--file` is empty, or the file cannot be read, or its text does not parse
as a descriptor, then `handlePutAll` returns an error and issues no call; if the file
is read and parses, `handlePutAll` returns no error, whatever the platform answers to
the upsert calls. -/
theorem handlePutAll_outcome (env : Env) (c : Context) :
    ((c.GetString "file" = "" ∨ (∃ e, env.ReadFile (c.GetString "file") = .error e) ∨
        (∃ str e, env.ReadFile (c.GetString "file") = .ok str ∧
          env.UnmarshalYAML str = .error e)) →
      (∃ msg, (handlePutAll env c).result = .error msg) ∧ (handlePutAll env c).calls = []) ∧
    (c.GetString "file" ≠ "" →
      ∀ str conf, env.ReadFile (c.GetString "file") = .ok str →
        env.UnmarshalYAML str = .ok conf → (handlePutAll env c).result = .ok) := by
  constructor
  · intro h
    by_cases hfile : c.GetString "file" = ""
    · simp [handlePutAll, hfile]
    · rcases h with h | ⟨e, he⟩ | ⟨str, e, hs, he⟩
      · exact absurd h hfile
      · simp [handlePutAll, hfile, parseYAML, he]
      · simp [handlePutAll, hfile, parseYAML, hs, he]
  · intro hfile str conf hs hc
    simp [handlePutAll, hfile, parseYAML, hs, hc, putAllLoops_result]

/-! ## Bulk load: keys -/

/-- C14: every call issued by `handlePutAll` is an upsert that carries an item of the
descriptor as its body and is keyed by a field of that same item: its `Name` for a
deployment and for a microservice, its `ID` for an application, region, node,
relationship, external endpoint and dynamic node. -/
theorem handlePutAll_keys_from_items (env : Env) (c : Context) (op : Op)
    (hop : op ∈ (handlePutAll env c).calls) :
    ∃ b, op.verb = .put ∧ op.body = some b ∧ op.resource = b.resource ∧
      op.key = some b.putAllKey ∧
      ∀ conf, parseYAML env (c.GetString "file") = .ok conf → b ∈ conf.items := by
  unfold handlePutAll at hop
  split_ifs at hop with hfile
  · simp at hop
  · cases hparse : parseYAML env (c.GetString "file") with
    | error e => simp [hparse] at hop
    | ok conf =>
      simp only [hparse, putAllLoops_calls, List.nil_append] at hop
      simp only [expectedPutAllCalls, List.mem_append, List.mem_map] at hop
      rcases hop with
        ((((((⟨x, hx, rfl⟩ | ⟨x, hx, rfl⟩) | ⟨x, hx, rfl⟩) | ⟨x, hx, rfl⟩) | ⟨x, hx, rfl⟩) |
          ⟨x, hx, rfl⟩) | ⟨x, hx, rfl⟩) | ⟨x, hx, rfl⟩
      all_goals
        refine ⟨_, rfl, rfl, rfl, rfl, ?_⟩
        intro conf2 h2
        cases h2
        simp [confFile.items, hx]

/-- Worked instance of C14: the microservice of `sampleConf` has the identifier `m1`
and the name `frontend`; its upsert is keyed by the name. -/
theorem handlePutAll_keys_from_items_witness :
    Op.PutMicroservicesID "frontend" ⟨"m1", "frontend", "", "a1", "", "", ""⟩ ∈
      (handlePutAll envBulk bulkContext).calls ∧
    ∃ b, (Op.PutMicroservicesID "frontend" ⟨"m1", "frontend", "", "a1", "", "", ""⟩).verb = .put ∧
      (Op.PutMicroservicesID "frontend" ⟨"m1", "frontend", "", "a1", "", "", ""⟩).body = some b ∧
      (Op.PutMicroservicesID "frontend" ⟨"m1", "frontend", "", "a1", "", "", ""⟩).resource =
        b.resource ∧
      (Op.PutMicroservicesID "frontend" ⟨"m1", "frontend", "", "a1", "", "", ""⟩).key =
        some b.putAllKey ∧
      ∀ conf, parseYAML envBulk (bulkContext.GetString "file") = .ok conf → b ∈ conf.items :=
  ⟨by decide,
    handlePutAll_keys_from_items envBulk bulkContext
      (Op.PutMicroservicesID "frontend" ⟨"m1", "frontend", "", "a1", "", "", ""⟩) (by decide)⟩

/-! ## Renderer: joined identifier cells -/

/-- C17, at an application whose microservice identifiers are the empty text and
`m2`, and at a region whose relationship identifiers are the empty text and `rel2`:
the cell built by `printData` is `m2` (resp. `rel2`) in the list and in the single-item
table, whereas the identifiers joined with a comma give `,m2` (resp. `,rel2`). -/
theorem printData_drops_leading_empty_id :
    printData envUp (.GetApplicationsIDOK appEmptyFirst) =
        some [.table ["ID", "Name", "Description", "Status", "Microservice Id"]
          [["a1", "shop", "", "running", "m2"]]] ∧
      printData envUp (.GetApplicationsOK [appEmptyFirst]) =
        some [.table ["ID", "Name", "Description", "Status", "Microservice Id"]
          [["a1", "shop", "", "running", "m2"]]] ∧
      ",".intercalate (appEmptyFirst.Microservices.map (fun ms => ms.MicroserviceID)) = ",m2" ∧
      printData envUp (.GetRegionsOK [regionEmptyFirst]) =
        some [.table ["ID", "Description", "Location", "Tier", "CPUPrice", "MemPrice",
          "DiskPrice", "Relationship Id"] [["r1", "", "", "1", "", "", "", "rel2"]]] ∧
      ",".intercalate (regionEmptyFirst.Relationships.map (fun rel => rel.RelationshipID)) =
        ",rel2" := by
  refine ⟨?_, ?_, ?_, ?_, ?_⟩ <;> decide

/-- Appending a comma and more text to any text gives a non-empty text. -/
theorem append_comma_ne_empty (acc id : String) : acc ++ "," ++ id ≠ "" := by
  intro h
  have h2 := congrArg String.length h
  simp at h2
  exact absurd h2.1.2 (by decide)

/-- Once the accumulator is non-empty the loop appends a comma and the identifier at
every step, as a join does. -/
theorem joinIDs_foldl_nonempty (ids : List String) (acc : String) (hacc : acc ≠ "") :
    ids.foldl (fun acc id => if acc = "" then id else acc ++ "," ++ id) acc =
      String.intercalate.go acc "," ids := by
  induction ids generalizing acc with
  | nil => simp [String.intercalate.go]
  | cons x rest ih =>
    simp only [List.foldl_cons, hacc, if_false, String.intercalate.go]
    exact ih _ (append_comma_ne_empty acc x)

/-- For a list that is empty or starts with a non-empty identifier, the cell built by
the accumulation loop is the identifiers joined with a comma. -/
theorem joinIDs_eq_intercalate (ids : List String) (h : ids.head? ≠ some "") :
    joinIDs ids = ",".intercalate ids := by
  cases ids with
  | nil => simp [joinIDs, String.intercalate]
  | cons x rest =>
    have hx : x ≠ "" := by simpa using h
    simp only [joinIDs, List.foldl_cons, if_true, String.intercalate]
    exact joinIDs_foldl_nonempty rest x hx

/-- A list that starts with empty identifiers loses them, and their commas, in the
cell. -/
theorem joinIDs_empty_head (ids : List String) : joinIDs ("" :: ids) = joinIDs ids := by
  simp [joinIDs]

/-! ## Renderer: dispatch -/

/-- The sixteen blocks run in sequence do what the single dispatch of `printData`
does. -/
theorem runBlocks_printDataBlocks (env : Env) (any : Any) :
    runBlocks (printDataBlocks env) any = printData env any := by
  cases any <;> simp only [runBlocks, printDataBlocks] <;>
    (cases h : printData env _ <;> simp_all [printData])

/-- A value that is none of the sixteen shapes, nil included, enters no block, and
`printData` writes nothing. -/
theorem printData_unrecognised (env : Env) (any : Any) (h : any.recognised = false) :
    printData env any = some [] ∧ ∀ b ∈ printDataBlocks env, b any = none := by
  cases any <;> simp [Any.recognised] at h <;> simp [printData, printDataBlocks]

/-- For a value of one of the sixteen shapes the blocks are all skipped but one, which
does what `printData` does for the value. -/
theorem printDataBlocks_recognised (env : Env) (any : Any) (h : any.recognised = true) :
    ∃ pre post, (printDataBlocks env).map (fun b => b any) =
        pre ++ some (printData env any) :: post ∧
      (∀ r ∈ pre, r = none) ∧ (∀ r ∈ post, r = none) := by
  cases any with
  | nil => simp [Any.recognised] at h
  | other t => simp [Any.recognised] at h
  | GetApplicationsOK x => exact ⟨List.replicate 0 none, List.replicate 15 none, rfl, by simp, by simp⟩
  | GetApplicationsIDOK x => exact ⟨List.replicate 1 none, List.replicate 14 none, rfl, by simp, by simp⟩
  | GetDeploymentsOK x => exact ⟨List.replicate 2 none, List.replicate 13 none, rfl, by simp, by simp⟩
  | GetDeploymentsNameOK x => exact ⟨List.replicate 3 none, List.replicate 12 none, rfl, by simp, by simp⟩
  | GetMicroservicesOK x => exact ⟨List.replicate 4 none, List.replicate 11 none, rfl, by simp, by simp⟩
  | GetMicroservicesIDOK x => exact ⟨List.replicate 5 none, List.replicate 10 none, rfl, by simp, by simp⟩
  | GetNodesOK x => exact ⟨List.replicate 6 none, List.replicate 9 none, rfl, by simp, by simp⟩
  | GetNodesIDOK x => exact ⟨List.replicate 7 none, List.replicate 8 none, rfl, by simp, by simp⟩
  | GetRegionsOK x => exact ⟨List.replicate 8 none, List.replicate 7 none, rfl, by simp, by simp⟩
  | GetRegionsIDOK x => exact ⟨List.replicate 9 none, List.replicate 6 none, rfl, by simp, by simp⟩
  | GetRelationshipsOK x => exact ⟨List.replicate 10 none, List.replicate 5 none, rfl, by simp, by simp⟩
  | GetRelationshipsIDOK x => exact ⟨List.replicate 11 none, List.replicate 4 none, rfl, by simp, by simp⟩
  | GetExternalendpointsOK x => exact ⟨List.replicate 12 none, List.replicate 3 none, rfl, by simp, by simp⟩
  | GetExternalendpointsIDOK x => exact ⟨List.replicate 13 none, List.replicate 2 none, rfl, by simp, by simp⟩
  | GetDynamicnodesOK x => exact ⟨List.replicate 14 none, List.replicate 1 none, rfl, by simp, by simp⟩
  | GetDynamicnodesIDOK x => exact ⟨List.replicate 15 none, List.replicate 0 none, rfl, by simp, by simp⟩

/-- Counting over results that are all skipped but one. -/
theorem count_one_block (f : BlockResult → Bool) (hf : f none = false)
    (pre post : List BlockResult) (x : BlockResult)
    (hpre : ∀ r ∈ pre, r = none) (hpost : ∀ r ∈ post, r = none) :
    ((pre ++ x :: post).map f).count true = if f x then 1 else 0 := by
  have hnone : ∀ l : List BlockResult, (∀ r ∈ l, r = none) → (l.map f).count true = 0 := by
    intro l hl
    rw [List.count_eq_zero]
    intro hmem
    obtain ⟨r, hr, hfr⟩ := List.mem_map.1 hmem
    rw [hl r hr, hf] at hfr
    exact absurd hfr (by decide)
  rw [List.map_append, List.map_cons, List.count_append, List.count_cons, hnone pre hpre,
    hnone post hpost]
  cases f x <;> simp

/-- Whenever `printData` completes on a value of one of the sixteen shapes it has
written something. -/
theorem printData_output_nonempty (env : Env) (any : Any) (h : any.recognised = true)
    (out : List Out) (hout : printData env any = some out) : out ≠ [] := by
  cases any <;> simp [Any.recognised] at h <;> simp only [printData] at hout
  all_goals first
    | (cases hout; simp)
    | (split at hout
       · simp at hout
       · cases hout; simp)

/-- A value of one of the sixteen shapes enters exactly one block, and when
`printData` completes on it that block is the one block that produced output. -/
theorem printData_one_block (env : Env) (any : Any) (h : any.recognised = true) :
    ((printDataBlocks env).map (fun b => (b any).entered)).count true = 1 ∧
      ∀ out, printData env any = some out →
        ((printDataBlocks env).map (fun b => (b any).producedOutput)).count true = 1 := by
  obtain ⟨pre, post, hmap, hpre, hpost⟩ := printDataBlocks_recognised env any h
  have hcomp : ∀ f : BlockResult → Bool,
      (printDataBlocks env).map (fun b => f (b any)) =
        ((printDataBlocks env).map (fun b => b any)).map f := by
    intro f
    rw [List.map_map]
    rfl
  constructor
  · rw [hcomp BlockResult.entered, hmap, count_one_block _ rfl _ _ _ hpre hpost]
    simp [BlockResult.entered]
  · intro out hout
    have hne := printData_output_nonempty env any h out hout
    rw [hcomp BlockResult.producedOutput, hmap, count_one_block _ rfl _ _ _ hpre hpost, hout]
    cases out with
    | nil => exact absurd rfl hne
    | cons o os => simp [BlockResult.producedOutput]

/-- C18, at the single-region response of a region without a price breakdown: the
value is one of the sixteen shapes and enters the block of its type, but that block
panics on the nil `Prices`, so no block of `printData` produces output. -/
theorem printData_region_without_prices_no_output :
    (Any.GetRegionsIDOK regionNoPrices).recognised = true ∧
      ((printDataBlocks envUp).map (fun b => (b (.GetRegionsIDOK regionNoPrices)).entered)).count
        true = 1 ∧
      ((printDataBlocks envUp).map
        (fun b => (b (.GetRegionsIDOK regionNoPrices)).producedOutput)).count true = 0 ∧
      runBlocks (printDataBlocks envUp) (.GetRegionsIDOK regionNoPrices) = none ∧
      printData envUp (.GetRegionsIDOK regionNoPrices) = none := by
  refine ⟨?_, ?_, ?_, ?_, ?_⟩ <;> decide

/-! ## Get: failures and rendering -/

/-- What a branch of `handleGet` does, by the answer of the platform. -/
theorem getAndPrint_outcome (env : Env) (op : Op) (failed : String) (wrap : op.Resp → Any) :
    (∀ e, env.submit [] op = .error e →
      getAndPrint env op failed wrap = { calls := [op], result := .error (failed ++ e) }) ∧
    (∀ resp, env.submit [] op = .ok resp →
      getAndPrint env op failed wrap =
        match printData env (wrap resp) with
        | some out => { calls := [op], out := out, result := .ok }
        | none => { calls := [op], result := .panic }) := by
  constructor
  · intro e he
    simp [getAndPrint, he]
  · intro resp hresp
    simp [getAndPrint, hresp]

/-- For each of the eight resource tokens and both variants of the request: if the
call fails, `handleGet` returns the underlying error text behind a message that names
the resource type, and writes nothing; if the call succeeds, what `handleGet` writes
and how it ends are those of one run of `printData` on the response: it returns no
error when `printData` completes, and the process panics when `printData` does. -/
theorem handleGet_outcome (env : Env) (c : Context) (tok : String)
    (htok : tok ∈ Command.ArgsUsage .get) (harg : c.Get 0 = tok) :
    ∃ op, op.resource = tok ∧
      (∀ e, env.submit [] op = .error e →
        handleGet env c =
          { calls := [op], result := .error ("Error: get " ++ getLabel tok ++ " failed: " ++ e) }) ∧
      (∀ resp, env.submit [] op = .ok resp →
        handleGet env c =
          match printData env (op.asAny resp) with
          | some out => { calls := [op], out := out, result := .ok }
          | none => { calls := [op], result := .panic }) := by
  simp only [Command.ArgsUsage, List.mem_cons, List.mem_singleton, List.not_mem_nil,
    or_false] at htok
  rcases htok with h | h | h | h | h | h | h | h <;> subst h <;>
    simp only [getLabel, String.reduceEq, if_true, if_false]
  · by_cases hid : c.GetString "id" = ""
    · have hg : handleGet env c = getAndPrint env Op.GetApplications
          "Error: get applications failed: " Any.GetApplicationsOK := by
        simp [handleGet, harg, hid]
      rw [hg]
      exact ⟨Op.GetApplications, rfl, (getAndPrint_outcome env _ _ _).1,
        (getAndPrint_outcome env _ _ _).2⟩
    · have hg : handleGet env c = getAndPrint env (Op.GetApplicationsID (c.GetString "id"))
          "Error: get applications failed: " Any.GetApplicationsIDOK := by
        simp [handleGet, harg, hid]
      rw [hg]
      exact ⟨Op.GetApplicationsID (c.GetString "id"), rfl, (getAndPrint_outcome env _ _ _).1,
        (getAndPrint_outcome env _ _ _).2⟩
  · by_cases hid : c.GetString "id" = ""
    · have hg : handleGet env c = getAndPrint env (Op.GetDeployments (optionalField (c.GetString "status")))
          "Error: get deployments failed: " Any.GetDeploymentsOK := by
        simp [handleGet, harg, hid]
      rw [hg]
      exact ⟨Op.GetDeployments (optionalField (c.GetString "status")), rfl, (getAndPrint_outcome env _ _ _).1,
        (getAndPrint_outcome env _ _ _).2⟩
    · have hg : handleGet env c = getAndPrint env (Op.GetDeploymentsName (c.GetString "id"))
          "Error: get deployments failed: " Any.GetDeploymentsNameOK := by
        simp [handleGet, harg, hid]
      rw [hg]
      exact ⟨Op.GetDeploymentsName (c.GetString "id"), rfl, (getAndPrint_outcome env _ _ _).1,
        (getAndPrint_outcome env _ _ _).2⟩
  · by_cases hid : c.GetString "id" = ""
    · have hg : handleGet env c = getAndPrint env (Op.GetMicroservices (optionalField (c.GetString "node_id")))
          "Error: get microservices failed: " Any.GetMicroservicesOK := by
        simp [handleGet, harg, hid]
      rw [hg]
      exact ⟨Op.GetMicroservices (optionalField (c.GetString "node_id")), rfl, (getAndPrint_outcome env _ _ _).1,
        (getAndPrint_outcome env _ _ _).2⟩
    · have hg : handleGet env c = getAndPrint env (Op.GetMicroservicesID (c.GetString "id"))
          "Error: get microservices failed: " Any.GetMicroservicesIDOK := by
        simp [handleGet, harg, hid]
      rw [hg]
      exact ⟨Op.GetMicroservicesID (c.GetString "id"), rfl, (getAndPrint_outcome env _ _ _).1,
        (getAndPrint_outcome env _ _ _).2⟩
  · by_cases hid : c.GetString "id" = ""
    · have hg : handleGet env c = getAndPrint env (Op.GetNodes (optionalField (c.GetString "region_id")))
          "Error: get nodes failed: " Any.GetNodesOK := by
        simp [handleGet, harg, hid]
      rw [hg]
      exact ⟨Op.GetNodes (optionalField (c.GetString "region_id")), rfl, (getAndPrint_outcome env _ _ _).1,
        (getAndPrint_outcome env _ _ _).2⟩
    · have hg : handleGet env c = getAndPrint env (Op.GetNodesID (c.GetString "id"))
          "Error: get nodes failed: " Any.GetNodesIDOK := by
        simp [handleGet, harg, hid]
      rw [hg]
      exact ⟨Op.GetNodesID (c.GetString "id"), rfl, (getAndPrint_outcome env _ _ _).1,
        (getAndPrint_outcome env _ _ _).2⟩
  · by_cases hid : c.GetString "id" = ""
    · have hg : handleGet env c = getAndPrint env Op.GetRegions
          "Error: get regions failed: " Any.GetRegionsOK := by
        simp [handleGet, harg, hid]
      rw [hg]
      exact ⟨Op.GetRegions, rfl, (getAndPrint_outcome env _ _ _).1,
        (getAndPrint_outcome env _ _ _).2⟩
    · have hg : handleGet env c = getAndPrint env (Op.GetRegionsID (c.GetString "id"))
          "Error: get regions failed: " Any.GetRegionsIDOK := by
        simp [handleGet, harg, hid]
      rw [hg]
      exact ⟨Op.GetRegionsID (c.GetString "id"), rfl, (getAndPrint_outcome env _ _ _).1,
        (getAndPrint_outcome env _ _ _).2⟩
  · by_cases hid : c.GetString "id" = ""
    · have hg : handleGet env c = getAndPrint env (Op.GetRelationships (optionalField (c.GetString "region_id")))
          "Error: get relationships failed: " Any.GetRelationshipsOK := by
        simp [handleGet, harg, hid]
      rw [hg]
      exact ⟨Op.GetRelationships (optionalField (c.GetString "region_id")), rfl, (getAndPrint_outcome env _ _ _).1,
        (getAndPrint_outcome env _ _ _).2⟩
    · have hg : handleGet env c = getAndPrint env (Op.GetRelationshipsID (c.GetString "id"))
          "Error: get relationships failed: " Any.GetRelationshipsIDOK := by
        simp [handleGet, harg, hid]
      rw [hg]
      exact ⟨Op.GetRelationshipsID (c.GetString "id"), rfl, (getAndPrint_outcome env _ _ _).1,
        (getAndPrint_outcome env _ _ _).2⟩
  · by_cases hid : c.GetString "id" = ""
    · have hg : handleGet env c = getAndPrint env (Op.GetExternalendpoints (optionalField (c.GetString "region_id")))
          "Error: get external endpoints failed: " Any.GetExternalendpointsOK := by
        simp [handleGet, harg, hid]
      rw [hg]
      exact ⟨Op.GetExternalendpoints (optionalField (c.GetString "region_id")), rfl, (getAndPrint_outcome env _ _ _).1,
        (getAndPrint_outcome env _ _ _).2⟩
    · have hg : handleGet env c = getAndPrint env (Op.GetExternalendpointsID (c.GetString "id"))
          "Error: get external endpoints failed: " Any.GetExternalendpointsIDOK := by
        simp [handleGet, harg, hid]
      rw [hg]
      exact ⟨Op.GetExternalendpointsID (c.GetString "id"), rfl, (getAndPrint_outcome env _ _ _).1,
        (getAndPrint_outcome env _ _ _).2⟩
  · by_cases hid : c.GetString "id" = ""
    · have hg : handleGet env c = getAndPrint env (Op.GetDynamicnodes (optionalField (c.GetString "region_id")))
          "Error: get dynamicnodes failed: " Any.GetDynamicnodesOK := by
        simp [handleGet, harg, hid]
      rw [hg]
      exact ⟨Op.GetDynamicnodes (optionalField (c.GetString "region_id")), rfl, (getAndPrint_outcome env _ _ _).1,
        (getAndPrint_outcome env _ _ _).2⟩
    · have hg : handleGet env c = getAndPrint env (Op.GetDynamicnodesID (c.GetString "id"))
          "Error: get dynamicnodes failed: " Any.GetDynamicnodesIDOK := by
        simp [handleGet, harg, hid]
      rw [hg]
      exact ⟨Op.GetDynamicnodesID (c.GetString "id"), rfl, (getAndPrint_outcome env _ _ _).1,
        (getAndPrint_outcome env _ _ _).2⟩

/-- C19, at `get regions --id r1` when the platform answers with a region that has no
price breakdown: the call succeeds and `printData` is run on the response, but it
panics on the nil `Prices`, so `handleGet` does not return. -/
theorem handleGet_region_without_prices_panics :
    envUp.submit [] (Op.GetRegionsID "r1") = .ok (⟨"r1", "", "", 0, none, []⟩ : Region) ∧
      printData envUp (.GetRegionsIDOK ⟨"r1", "", "", 0, none, []⟩) = none ∧
      handleGet envUp getRegionContext =
        { calls := [Op.GetRegionsID "r1"], result := .panic } ∧
      (handleGet envUp getRegionContext).result ≠ .ok := by
  refine ⟨rfl, ?_, ?_, ?_⟩ <;> decide

/-! ## DeleteAll: the list request -/

/-- The delete loop of the applications case only appends calls produced by its
step. -/
theorem deleteLoopReturning_appends {α : Type} (step : List Op → α → Op × Except String OK)
    (failed : String) (hstep : ∀ prior x, (step prior x).1.verb = .delete) (items : List α)
    (r : Run) :
    ∃ more, (deleteLoopReturning step failed items r).calls = r.calls ++ more ∧
      ∀ op ∈ more, op.verb = .delete := by
  induction items generalizing r with
  | nil => exact ⟨[], by simp [deleteLoopReturning], by simp⟩
  | cons x rest ih =>
    have hx := hstep r.calls x
    unfold deleteLoopReturning
    rcases hs : step r.calls x with ⟨op, res⟩
    rw [hs] at hx
    cases res with
    | error err => exact ⟨[op], rfl, by simpa using hx⟩
    | ok resp =>
      obtain ⟨more, h1, h2⟩ := ih
        { r with calls := r.calls ++ [op], out := r.out ++ [.text (resp.Error ++ "\n")] }
      refine ⟨op :: more, by simpa using h1, ?_⟩
      intro o ho
      rcases List.mem_cons.1 ho with h | h
      · rw [h]; exact hx
      · exact h2 o h

/-- The delete loop of the seven other cases only appends calls produced by its
step. -/
theorem deleteLoopPrinting_appends {α : Type} (env : Env)
    (step : List Op → α → Op × Except String OK) (failed : String)
    (hstep : ∀ prior x, (step prior x).1.verb = .delete) (items : List α) (r : Run) :
    ∃ more, (deleteLoopPrinting env step failed items r).calls = r.calls ++ more ∧
      ∀ op ∈ more, op.verb = .delete := by
  induction items generalizing r with
  | nil => exact ⟨[], by simp [deleteLoopPrinting], by simp⟩
  | cons x rest ih =>
    have hx := hstep r.calls x
    unfold deleteLoopPrinting
    rcases hs : step r.calls x with ⟨op, res⟩
    rw [hs] at hx
    have hcons : ∀ more : List Op, (∀ o ∈ more, o.verb = .delete) →
        ∀ o ∈ op :: more, o.verb = .delete := by
      intro more h2 o ho
      rcases List.mem_cons.1 ho with h | h
      · rw [h]; exact hx
      · exact h2 o h
    cases res with
    | error err =>
      simp only
      cases env.nilError with
      | none => exact ⟨[op], rfl, by simpa using hx⟩
      | some s =>
        obtain ⟨more, h1, h2⟩ := ih
          { r with calls := r.calls ++ [op],
                   out := r.out ++ [.text (failed ++ err), .text (s ++ "\n")] }
        exact ⟨op :: more, by simpa using h1, hcons more h2⟩
    | ok resp =>
      obtain ⟨more, h1, h2⟩ := ih
        { r with calls := r.calls ++ [op], out := r.out ++ [.text (resp.Error ++ "\n")] }
      exact ⟨op :: more, by simpa using h1, hcons more h2⟩

/-- A case of `handleDeleteAll` issues its list call first and delete calls after it. -/
theorem listThen_appends (env : Env) (op : Op) (failed : String) (loop : op.Resp → Run → Run)
    (hloop : ∀ resp r, ∃ more, (loop resp r).calls = r.calls ++ more ∧
      ∀ o ∈ more, o.verb = .delete) :
    ∃ more, (listThen env op failed loop).calls = op :: more ∧
      ∀ o ∈ more, o.verb = .delete := by
  unfold listThen
  cases env.submit [] op with
  | error err => exact ⟨[], rfl, by simp⟩
  | ok resp =>
    obtain ⟨more, h1, h2⟩ := hloop resp { calls := [op], result := .ok }
    exact ⟨more, by simpa using h1, h2⟩

/-- C21: for each of the eight resource tokens `handleDeleteAll` issues one list
request, first, followed by delete requests only; the list request carries a filter
exactly when the token is `dynamicnodes` and the value of the option `region_id` is
non-empty, and the filter is then that value; for the seven other tokens the list
request carries no filter, whatever the options hold. -/
theorem handleDeleteAll_list_filter (env : Env) (c : Context) (tok : String)
    (htok : tok ∈ Command.ArgsUsage .deleteAll) (harg : c.Get 0 = tok) :
    ∃ lop more, (handleDeleteAll env c).calls = lop :: more ∧ lop.verb = .list ∧
      lop.resource = tok ∧ (∀ op ∈ more, op.verb = .delete) ∧
      (∀ v, lop.filter = some v ↔
        (tok = "dynamicnodes" ∧ c.GetString "region_id" ≠ "" ∧ v = c.GetString "region_id")) ∧
      (tok ≠ "dynamicnodes" → lop.filter = none) := by
  simp only [Command.ArgsUsage, List.mem_cons, List.mem_singleton, List.not_mem_nil,
    or_false] at htok
  rcases htok with h | h | h | h | h | h | h | h <;> subst h
  · obtain ⟨more, hcalls, hmore⟩ := listThen_appends env (Op.GetApplications)
      "Error: get applications failed: "
      (deleteLoopReturning
        (fun prior (app : Application) => env.send prior (.DeleteApplicationsID app.ID))
        "Error: delete applications failed: ")
      (fun resp r => deleteLoopReturning_appends _ _ (by intro _ _; rfl) resp r)
    refine ⟨Op.GetApplications, more, ?_, rfl, rfl, hmore, ?_⟩
    · simpa [handleDeleteAll, harg] using hcalls
    · simp [Op.filter]
  · obtain ⟨more, hcalls, hmore⟩ := listThen_appends env (Op.GetMicroservices none)
      "Error: get microservices failed: "
      (deleteLoopPrinting env
        (fun prior (ms : Microservice) => env.send prior (.DeleteMicroservicesID ms.ID))
        "Error: delete microservices failed: ")
      (fun resp r => deleteLoopPrinting_appends env _ _ (by intro _ _; rfl) resp r)
    refine ⟨Op.GetMicroservices none, more, ?_, rfl, rfl, hmore, ?_⟩
    · simpa [handleDeleteAll, harg] using hcalls
    · simp [Op.filter]
  · obtain ⟨more, hcalls, hmore⟩ := listThen_appends env (Op.GetNodes none)
      "Error: get nodes failed: "
      (deleteLoopPrinting env
        (fun prior (node : Node) => env.send prior (.DeleteNodesID node.ID))
        "Error: delete nodes failed: ")
      (fun resp r => deleteLoopPrinting_appends env _ _ (by intro _ _; rfl) resp r)
    refine ⟨Op.GetNodes none, more, ?_, rfl, rfl, hmore, ?_⟩
    · simpa [handleDeleteAll, harg] using hcalls
    · simp [Op.filter]
  · obtain ⟨more, hcalls, hmore⟩ := listThen_appends env (Op.GetRegions)
      "Error: get regions failed: "
      (deleteLoopPrinting env
        (fun prior (reg : Region) => env.send prior (.DeleteRegionsID reg.ID))
        "Error: delete regions failed: ")
      (fun resp r => deleteLoopPrinting_appends env _ _ (by intro _ _; rfl) resp r)
    refine ⟨Op.GetRegions, more, ?_, rfl, rfl, hmore, ?_⟩
    · simpa [handleDeleteAll, harg] using hcalls
    · simp [Op.filter]
  · obtain ⟨more, hcalls, hmore⟩ := listThen_appends env (Op.GetRelationships none)
      "Error: get relationships failed: "
      (deleteLoopPrinting env
        (fun prior (rel : Relationship) => env.send prior (.DeleteRelationshipsID rel.ID))
        "Error: delete relationships failed: ")
      (fun resp r => deleteLoopPrinting_appends env _ _ (by intro _ _; rfl) resp r)
    refine ⟨Op.GetRelationships none, more, ?_, rfl, rfl, hmore, ?_⟩
    · simpa [handleDeleteAll, harg] using hcalls
    · simp [Op.filter]
  · obtain ⟨more, hcalls, hmore⟩ := listThen_appends env (Op.GetExternalendpoints none)
      "Error: get external endpoints failed: "
      (deleteLoopPrinting env
        (fun prior (ee : ExternalEndpoint) => env.send prior (.DeleteExternalendpointsID ee.ID))
        "Error: delete external endpoints failed: ")
      (fun resp r => deleteLoopPrinting_appends env _ _ (by intro _ _; rfl) resp r)
    refine ⟨Op.GetExternalendpoints none, more, ?_, rfl, rfl, hmore, ?_⟩
    · simpa [handleDeleteAll, harg] using hcalls
    · simp [Op.filter]
  · obtain ⟨more, hcalls, hmore⟩ := listThen_appends env (Op.GetDynamicnodes (optionalField (c.GetString "region_id")))
      "Error: get dynamicnodes failed: "
      (deleteLoopPrinting env
        (fun prior (dnode : DynamicNode) => env.send prior (.DeleteDynamicnodesID dnode.ID))
        "Error: delete dynamicnodes failed: ")
      (fun resp r => deleteLoopPrinting_appends env _ _ (by intro _ _; rfl) resp r)
    refine ⟨Op.GetDynamicnodes (optionalField (c.GetString "region_id")), more, ?_, rfl, rfl, hmore, ?_⟩
    · simpa [handleDeleteAll, harg] using hcalls
    · simp only [Op.filter, optionalField]
      constructor
      · intro v
        by_cases hr : c.GetString "region_id" = ""
        · simp [hr]
        · simp [hr, eq_comm]
      · intro h
        exact absurd rfl h
  · obtain ⟨more, hcalls, hmore⟩ := listThen_appends env (Op.GetDeployments none)
      "Error: get deployments failed: "
      (deleteLoopPrinting env
        (fun prior (depl : Deployment) => env.send prior (.DeleteDeploymentsName depl.Name))
        "Error: delete deployment failed: ")
      (fun resp r => deleteLoopPrinting_appends env _ _ (by intro _ _; rfl) resp r)
    refine ⟨Op.GetDeployments none, more, ?_, rfl, rfl, hmore, ?_⟩
    · simpa [handleDeleteAll, harg] using hcalls
    · simp [Op.filter]

/-- Worked instance of C21: `handleDeleteAll` on the token `dynamicnodes` with the
option `region_id` reading `r1`. -/
theorem handleDeleteAll_list_filter_witness :
    ("dynamicnodes" ∈ Command.ArgsUsage .deleteAll ∧
      deleteAllDynContext.Get 0 = "dynamicnodes") ∧
    (handleDeleteAll envUp deleteAllDynContext).calls = [Op.GetDynamicnodes (some "r1")] ∧
    ∃ lop more, (handleDeleteAll envUp deleteAllDynContext).calls = lop :: more ∧
      lop.verb = .list ∧ lop.resource = "dynamicnodes" ∧ (∀ op ∈ more, op.verb = .delete) ∧
      (∀ v, lop.filter = some v ↔
        ("dynamicnodes" = "dynamicnodes" ∧ deleteAllDynContext.GetString "region_id" ≠ "" ∧
          v = deleteAllDynContext.GetString "region_id")) ∧
      ("dynamicnodes" ≠ "dynamicnodes" → lop.filter = none) :=
  ⟨⟨by decide, by decide⟩, by decide,
    handleDeleteAll_list_filter envUp deleteAllDynContext "dynamicnodes" (by decide)
      (by decide)⟩

/-- A delete request has no filter field. -/
theorem filter_none_of_delete (op : Op) (h : op.verb = .delete) : op.filter = none := by
  cases op <;> simp [Op.verb] at h <;> rfl

/-- When the option `region_id` reads empty, no call of `handleDeleteAll` carries a
filter. -/
theorem handleDeleteAll_no_filter_of_empty (env : Env) (c : Context)
    (hflag : c.GetString "region_id" = "") :
    ∀ op ∈ (handleDeleteAll env c).calls, op.filter = none := by
  have hshape : ∀ (lop : Op) (failed : String) (loop : lop.Resp → Run → Run),
      lop.filter = none →
      (∀ resp r, ∃ more, (loop resp r).calls = r.calls ++ more ∧
        ∀ o ∈ more, o.verb = .delete) →
      ∀ op ∈ (listThen env lop failed loop).calls, op.filter = none := by
    intro lop failed loop hl hloop op hop
    obtain ⟨more, hcalls, hmore⟩ := listThen_appends env lop failed loop hloop
    rw [hcalls] at hop
    rcases List.mem_cons.1 hop with h | h
    · rw [h]; exact hl
    · exact filter_none_of_delete op (hmore op h)
  simp only [handleDeleteAll]
  split_ifs
  · exact hshape _ _ _ (by rfl)
      (fun resp r => deleteLoopReturning_appends _ _ (by intro _ _; rfl) resp r)
  · exact hshape _ _ _ (by rfl)
      (fun resp r => deleteLoopPrinting_appends env _ _ (by intro _ _; rfl) resp r)
  · exact hshape _ _ _ (by rfl)
      (fun resp r => deleteLoopPrinting_appends env _ _ (by intro _ _; rfl) resp r)
  · exact hshape _ _ _ (by rfl)
      (fun resp r => deleteLoopPrinting_appends env _ _ (by intro _ _; rfl) resp r)
  · exact hshape _ _ _ (by rfl)
      (fun resp r => deleteLoopPrinting_appends env _ _ (by intro _ _; rfl) resp r)
  · exact hshape _ _ _ (by rfl)
      (fun resp r => deleteLoopPrinting_appends env _ _ (by intro _ _; rfl) resp r)
  · exact hshape _ _ _ (by rfl)
      (fun resp r => deleteLoopPrinting_appends env _ _ (by intro _ _; rfl) resp r)
  · exact hshape _ _ _ (by simp [Op.filter, optionalField, hflag])
      (fun resp r => deleteLoopPrinting_appends env _ _ (by intro _ _; rfl) resp r)
  · simp

/-- The `deleteAll` command declares no option `region_id`, so its handler reads the
option as empty whatever the command line holds, and no call issued through the
command line carries a filter. -/
theorem appRun_deleteAll_no_filter (env : Env) (cl : CommandLine)
    (hcmd : cl.command = .deleteAll) :
    (contextOf cl).GetString "region_id" = "" ∧
      ∀ op ∈ (appRun env cl).calls, op.filter = none := by
  have hflag : (contextOf cl).GetString "region_id" = "" := by
    simp [contextOf, Context.GetString, flagValue, hcmd, Command.Flags, List.lookup]
  refine ⟨hflag, ?_⟩
  unfold appRun
  simp only [hcmd, Command.Action]
  exact handleDeleteAll_no_filter_of_empty env (contextOf cl) hflag

/-- Worked instance: when the words `--region_id r1` reach the action of `deleteAll
dynamicnodes` as positional arguments, the list request is sent without a filter. -/
theorem appRun_deleteAll_region_unfiltered :
    appRun envUp deleteAllRegionLine =
      { calls := [Op.GetDynamicnodes none], result := .ok } := by
  decide

/-! ## Renderer: headers of the single-item and list tables -/

/-- C22, at deployments: whatever the deployments are, the main table of the list
response is headed `ExternaEndpointID` in its fourth column and the main table of the
single-item response `ExternalEndpointID`, so the two headers differ; the headers of
the two secondary tables are the same in both. -/
theorem printData_deployment_headers_differ (env : Env) (depls : List Deployment)
    (depl : Deployment) :
    (printData env (.GetDeploymentsOK depls)).map tableHeaders =
        some [["Name", "Description", "Status", "ExternaEndpointID"], deploymentMsHeader,
          deploymentDfHeader] ∧
      (printData env (.GetDeploymentsNameOK depl)).map tableHeaders =
        some [["Name", "Description", "Status", "ExternalEndpointID"], deploymentMsHeader,
          deploymentDfHeader] ∧
      (printData env (.GetDeploymentsOK depls)).map tableHeaders ≠
        (printData env (.GetDeploymentsNameOK depl)).map tableHeaders := by
  refine ⟨rfl, rfl, ?_⟩
  simp only [printData, Option.map_some', tableHeaders]
  decide

/-- For the seven resource types other than deployments, the headers of the tables
written for a single-item response are the headers written for any list response
of the same type. -/
theorem printData_headers_agree (env : Env) (b : Body) (a : Any) (hl : a.isList = true)
    (hr : a.resourceOf = some b.resource) (hne : b.resource ≠ "deployments")
    (o1 o2 : List Out) (h1 : printData env b.single = some o1)
    (h2 : printData env a = some o2) : tableHeaders o1 = tableHeaders o2 := by
  cases b <;> cases a <;> simp [Any.isList, Any.resourceOf, Body.resource] at hl hr hne <;>
    simp only [Body.single, printData] at h1 h2
  all_goals first
    | (cases h1; cases h2; rfl)
    | (split at h1
       · simp at h1
       · cases h1; cases h2; rfl)

/-! ## Renderer: rows of the single-item and list tables -/

/-- C23, at a relationship without a price breakdown: `printData` on the single-item
response panics on the nil `Prices`, whereas on the list response holding that one
relationship it completes and builds the row with empty price cells. -/
theorem printData_relationship_without_prices_panics :
    (Body.relationship relationshipNoPrices).pricesAbsent = true ∧
      printData envUp (Body.relationship relationshipNoPrices).single = none ∧
      (printData envUp (Body.relationship relationshipNoPrices).listOfOne).map tableRows =
        some [[["rel1", "n1", "n2", "r1", "100", "80", "5", "", "", "up"]]] := by
  refine ⟨?_, ?_, ?_⟩ <;> decide

/-- For every item other than a region or relationship without a price breakdown,
`printData` completes on the single-item response and on the list response holding
that one item, and builds the same rows in both; for a region or relationship without
a price breakdown the list response completes and the single-item response does not. -/
theorem printData_single_rows_agree (env : Env) (b : Body) :
    (b.pricesAbsent = false →
      ∃ o1 o2, printData env b.single = some o1 ∧ printData env b.listOfOne = some o2 ∧
        tableRows o1 = tableRows o2) ∧
    (b.pricesAbsent = true →
      printData env b.single = none ∧ ∃ o2, printData env b.listOfOne = some o2) := by
  cases b with
  | region x =>
    cases hp : x.Prices <;>
      simp [Body.pricesAbsent, Body.single, Body.listOfOne, printData, hp, tableRows,
        regionListRow]
  | relationship x =>
    cases hp : x.Prices <;>
      simp [Body.pricesAbsent, Body.single, Body.listOfOne, printData, hp, tableRows,
        relationshipListRow]
  | _ => simp [Body.pricesAbsent, Body.single, Body.listOfOne, printData, tableRows]

/-! ## Renderer: the three tables of a deployments list -/

/-- Appending one row per element is appending the mapped list. -/
theorem foldl_append_singleton {α β : Type} (f : α → β) (xs : List α) (acc : List β) :
    xs.foldl (fun acc x => acc ++ [f x]) acc = acc ++ xs.map f := by
  induction xs generalizing acc with
  | nil => simp
  | cons x rest ih => simp [ih]

/-- The slices after the loop, from any starting slices. -/
theorem foldl_deploymentsStep (env : Env) (depls : List Deployment) (t : DeploymentTables) :
    depls.foldl (deploymentsStep env) t =
      { data := t.data ++ depls.map deploymentRow
        datams := t.datams ++
          depls.flatMap (fun depl => depl.Microservices.map (deploymentMsRow env depl))
        datadf := t.datadf ++
          depls.flatMap (fun depl => depl.Dataflows.map (deploymentDfRow depl)) } := by
  induction depls generalizing t with
  | nil => simp
  | cons d rest ih =>
    simp [ih, deploymentsStep, foldl_append_singleton, List.append_assoc]

/-- Length of a list built group by group. -/
theorem length_flatMap_map {α β γ : Type} (xs : List α) (g : α → List β) (f : α → β → γ) :
    (xs.flatMap (fun x => (g x).map (f x))).length = (xs.map (fun x => (g x).length)).sum := by
  induction xs with
  | nil => simp
  | cons x rest ih => simp [ih]

/-- First cells of a list built group by group, when the first cell is fixed by the
group. -/
theorem head_flatMap_map {α β : Type} (xs : List α) (g : α → List β)
    (f : α → β → List String) (name : α → String)
    (hf : ∀ x y, (f x y).head? = some (name x)) :
    (xs.flatMap (fun x => (g x).map (f x))).map List.head? =
      xs.flatMap (fun x => (g x).map (fun _ => some (name x))) := by
  induction xs with
  | nil => simp
  | cons x rest ih =>
    simp only [List.flatMap_cons, List.map_append, ih, List.map_map]
    congr 1
    apply List.map_congr_left
    intro y _
    exact hf x y

/-- C24: for every deployments list response `printData` writes three tables, the
second under the title `Microservices Requirements` and the third under `Dataflows`,
whose rows are the slices left by the loop over the deployments: the main table has
one row per deployment in response order; the second has one row per microservice of
each deployment and the third one row per dataflow of each deployment, deployment
after deployment and in the order of the deployment; the first cell of every row of
the second and third table is the name of the deployment it belongs to; and the row
counts of these two tables are the sums of the microservice and dataflow counts. -/
theorem printData_deployments_tables (env : Env) (depls : List Deployment) :
    ∃ h1 main ms df,
      printData env (.GetDeploymentsOK depls) =
        some [.table h1 main, .text "Microservices Requirements\n",
          .table deploymentMsHeader ms, .text "Dataflows\n", .table deploymentDfHeader df] ∧
      main = (deploymentsLoop env depls).data ∧ ms = (deploymentsLoop env depls).datams ∧
      df = (deploymentsLoop env depls).datadf ∧
      main = depls.map deploymentRow ∧ main.length = depls.length ∧
      ms = depls.flatMap (fun d => d.Microservices.map (deploymentMsRow env d)) ∧
      df = depls.flatMap (fun d => d.Dataflows.map (deploymentDfRow d)) ∧
      ms.map List.head? = depls.flatMap (fun d => d.Microservices.map (fun _ => some d.Name)) ∧
      df.map List.head? = depls.flatMap (fun d => d.Dataflows.map (fun _ => some d.Name)) ∧
      ms.length = (depls.map (fun d => d.Microservices.length)).sum ∧
      df.length = (depls.map (fun d => d.Dataflows.length)).sum := by
  refine ⟨_, _, _, _, rfl, ?_, ?_, ?_, rfl, ?_, rfl, rfl, ?_, ?_, ?_, ?_⟩
  · simp [deploymentsLoop, foldl_deploymentsStep]
  · simp [deploymentsLoop, foldl_deploymentsStep]
  · simp [deploymentsLoop, foldl_deploymentsStep]
  · simp
  · exact head_flatMap_map depls _ (deploymentMsRow env) (fun d => d.Name) (fun _ _ => rfl)
  · exact head_flatMap_map depls _ deploymentDfRow (fun d => d.Name) (fun _ _ => rfl)
  · exact length_flatMap_map depls _ _
  · exact length_flatMap_map depls _ _

/-- Worked example of the three tables: two deployments with two and one
microservices and with one and no dataflow. -/
theorem printData_sample_deployments :
    (printData envUp (.GetDeploymentsOK sampleDeployments)).map tableRows =
      some [[["web", "", "running", "e1"], ["db", "", "running", ""]],
        [["web", "front", "", "1", "1", "1", "r1", "", "0", "0", ""],
          ["web", "api", "", "2", "2", "2", "r1", "", "0", "0", ""],
          ["db", "store", "", "4", "8", "16", "r2", "", "0", "0", ""]],
        [["web", "front", "api", "10", "5"]]] ∧
      deploymentsLoop envUp sampleDeployments =
        { data := [["web", "", "running", "e1"], ["db", "", "running", ""]]
          datams := [["web", "front", "", "1", "1", "1", "r1", "", "0", "0", ""],
            ["web", "api", "", "2", "2", "2", "r1", "", "0", "0", ""],
            ["db", "store", "", "4", "8", "16", "r2", "", "0", "0", ""]]
          datadf := [["web", "front", "api", "10", "5"]] } := by
  constructor <;> decide

end Fogatlasctl
